import Mathlib

/-
Verification development for the TC358768AXBG/TC358778XBG DPI-to-DSI encoder
driver.  The definitions below are a shallow embedding of the driver's C code:
machine integers are modelled as Nat with explicit reductions modulo 2^16,
2^32 and 2^64 exactly where the C code's types truncate, bus transactions are
recorded in an explicit trace, and fallible regmap operations return an Int
error code (0 = success, -5 = -EIO, -22 = -EINVAL) exactly as the C functions
do.
-/

namespace TC358768

/-- 2^16, the modulus of the 16-bit bus word. -/
def U16MOD : Nat := 65536

/-- 2^32, the modulus of the C type u32 / unsigned int. -/
def U32MOD : Nat := 4294967296

/-- 2^64, the modulus of the C type u64. -/
def U64MOD : Nat := 18446744073709551616

/-- UINT_MAX, the sentinel used by tc358768_calc_pll. -/
def UINT_MAX : Nat := 4294967295

/- Register addresses used by the modelled code paths. -/

def SYSCTL : Nat := 0x0002
def CONFCTL : Nat := 0x0004
def VSDLY : Nat := 0x0006
def DATAFMT : Nat := 0x0008
def PLLCTL0 : Nat := 0x0016
def PLLCTL1 : Nat := 0x0018
def PP_MISC : Nat := 0x0032
def DSITX_DT : Nat := 0x0050
def CLW_CNTRL : Nat := 0x0140
def D0W_CNTRL : Nat := 0x0144
def D1W_CNTRL : Nat := 0x0148
def D2W_CNTRL : Nat := 0x014C
def D3W_CNTRL : Nat := 0x0150
def STARTCNTRL : Nat := 0x0204
def LINEINITCNT : Nat := 0x0210
def LPTXTIMECNT : Nat := 0x0214
def TCLK_HEADERCNT : Nat := 0x0218
def TCLK_TRAILCNT : Nat := 0x021C
def THS_HEADERCNT : Nat := 0x0220
def TWAKEUP : Nat := 0x0224
def TCLK_POSTCNT : Nat := 0x0228
def THS_TRAILCNT : Nat := 0x022C
def HSTXVREGEN : Nat := 0x0234
def TXOPTIONCNTRL : Nat := 0x0238
def BTACNTRL1 : Nat := 0x023C
def DSI_CONFW : Nat := 0x0500
def DSI_START : Nat := 0x0518
def DSICMD_TX : Nat := 0x0600
def DSICMD_TYPE : Nat := 0x0602
def DSICMD_WC : Nat := 0x0604
def DSICMD_WD0 : Nat := 0x0610
def DSI_EVENT : Nat := 0x0620
def DSI_VSW : Nat := 0x0622
def DSI_VBPR : Nat := 0x0624
def DSI_VACT : Nat := 0x0626
def DSI_HSW : Nat := 0x0628
def DSI_HBPR : Nat := 0x062A
def DSI_HACT : Nat := 0x062C

/- MIPI constants from <video/mipi_display.h> used by the driver. -/

def MIPI_DSI_DCS_SHORT_WRITE : Nat := 0x05
def MIPI_DSI_DCS_SHORT_WRITE_PARAM : Nat := 0x15
def MIPI_DSI_TURN_ON_PERIPHERAL : Nat := 0x32
def MIPI_DCS_EXIT_SLEEP_MODE : Nat := 0x11
def MIPI_DCS_SET_PIXEL_FORMAT : Nat := 0x3A
def MIPI_DCS_PIXEL_FMT_24BIT : Nat := 0x77

/-- One observable event at the bus / delay boundary: a 16-bit wire write
transaction (value already reduced mod 2^16 by the regmap layer with
val_bits = 16), a 16-bit wire read transaction, a usleep_range delay, or an
msleep delay. -/
inductive Ev where
  | wr (reg val : Nat)
  | rd (reg : Nat)
  | sleepUs (lo hi : Nat)
  | sleepMs (ms : Nat)
deriving DecidableEq, Repr

/-- The abstract device/bus state: a 16-bit register file, the trace of
attempted transactions and delays, a running transaction counter, and a fault
model assigning to each transaction index whether the bus fails there. -/
structure Dev where
  regs : Nat → Nat
  trace : List Ev
  txCount : Nat
  fail : Nat → Bool

/-- regmap_write with the driver's regmap_config (reg_bits = 16,
val_bits = 16): a single 16-bit wire transaction carrying the low 16 bits of
the value.  On failure the register file is unchanged; the attempted
transaction is recorded either way. -/
def regmapWrite (dev : Dev) (reg val : Nat) : Dev × Int :=
  if dev.fail dev.txCount then
    ({ dev with
       trace := dev.trace ++ [.wr reg (val % U16MOD)]
       txCount := dev.txCount + 1 }, -5)
  else
    ({ dev with
       regs := fun r => if r = reg then val % U16MOD else dev.regs r
       trace := dev.trace ++ [.wr reg (val % U16MOD)]
       txCount := dev.txCount + 1 }, 0)

/-- regmap_read: a single 16-bit wire read transaction.  On failure, the C
code leaves *val unset and callers must not read it; we return 0 there. -/
def regmapRead (dev : Dev) (reg : Nat) : Dev × Int × Nat :=
  let dev2 := { dev with
                trace := dev.trace ++ [.rd reg]
                txCount := dev.txCount + 1 }
  if dev.fail dev.txCount then (dev2, -5, 0) else (dev2, 0, dev.regs reg)

/-- tc358768_write: registers below 0x100 or at/above 0x600 are one 16-bit
transaction; registers in between are written as two 16-bit transactions,
low half at reg and high half at reg + 2, aborting the second when the first
fails.  The parameter has C type unsigned int, hence the entry reduction. -/
def tcWrite (dev : Dev) (reg val : Nat) : Dev × Int :=
  let v := val % U32MOD
  if reg < 0x100 ∨ 0x600 ≤ reg then
    regmapWrite dev reg v
  else
    let a := regmapWrite dev reg v
    if a.2 ≠ 0 then a else regmapWrite a.1 (reg + 2) (v >>> 16)

/-- tc358768_read: one 16-bit read below 0x100 / at or above 0x600, otherwise
two 16-bit reads reassembled as v1 | (v2 << 16), aborting after the first
failure. -/
def tcRead (dev : Dev) (reg : Nat) : Dev × Int × Nat :=
  if reg < 0x100 ∨ 0x600 ≤ reg then
    regmapRead dev reg
  else
    let a := regmapRead dev reg
    if a.2.1 ≠ 0 then (a.1, a.2.1, 0)
    else
      let b := regmapRead a.1 (reg + 2)
      if b.2.1 ≠ 0 then (b.1, b.2.1, 0)
      else (b.1, 0, a.2.2 ||| (b.2.2 <<< 16))

/-- tc358768_update_bits: read-modify-write.  tmp = (orig & ~mask) |
(val & mask) with ~ the 32-bit complement; the write is issued only when tmp
differs from orig, and a failed read returns at once without any write. -/
def tcUpdateBits (dev : Dev) (reg mask val : Nat) : Dev × Int :=
  let m := mask % U32MOD
  let v := val % U32MOD
  let a := tcRead dev reg
  if a.2.1 ≠ 0 then (a.1, a.2.1)
  else
    let tmp := (a.2.2 &&& (UINT_MAX ^^^ m)) ||| (v &&& m)
    if tmp ≠ a.2.2 then tcWrite a.1 reg tmp else (a.1, a.2.1)

/-- tc358768_dsi_xfer_short: writes packet type/command id, word count,
payload word, and the transfer trigger; all four write results are ignored
and 0 is returned unconditionally. -/
def xferShort (dev : Dev) (dataId data0 data1 : Nat) : Dev × Int :=
  let dataId := dataId % 256
  let data0 := data0 % 256
  let data1 := data1 % 256
  let d1 := (tcWrite dev DSICMD_TYPE ((0x10 <<< 8) ||| dataId)).1
  let d2 := (tcWrite d1 DSICMD_WC (0 &&& 0xf)).1
  let d3 := (tcWrite d2 DSICMD_WD0 ((data1 <<< 8) ||| data0)).1
  let d4 := (tcWrite d3 DSICMD_TX 1).1
  (d4, 0)

/-- tc358768_sw_reset: assert then release the software reset bit. -/
def swReset (dev : Dev) : Dev :=
  let d1 := (tcWrite dev SYSCTL 1).1
  (tcWrite d1 SYSCTL 0).1

/-- Record a usleep_range delay in the trace. -/
def sleepUsEv (dev : Dev) (lo hi : Nat) : Dev :=
  { dev with trace := dev.trace ++ [.sleepUs lo hi] }

/-- Record an msleep delay in the trace. -/
def sleepMsEv (dev : Dev) (ms : Nat) : Dev :=
  { dev with trace := dev.trace ++ [.sleepMs ms] }

/-- The driver's per-device data (struct tc358768_drv_data), restricted to
the fields the modelled code paths use.  All fields have C type u32 or
unsigned int; a faithful state has every field below 2^32. -/
structure Ddata where
  dpi_ndl : Nat
  dsi_ndl : Nat
  fbd : Nat
  prd : Nat
  frs : Nat
  bitclk : Nat
  pixelclock : Nat
  refclk : Nat
  hsw : Nat
  hbp : Nat
  vsw : Nat
  vbp : Nat
deriving DecidableEq, Repr

/-- tc358768_pll_to_pclk: byteclk = pll / 2 / 4, result =
(u32)((u64)byteclk * 8 * dsi_ndl / dpi_ndl). -/
def pllToPclk (d : Ddata) (pll : Nat) : Nat :=
  let byteclk := pll % U32MOD / 2 / 4
  byteclk * 8 * d.dsi_ndl / d.dpi_ndl % U32MOD

/-- tc358768_pclk_to_pll: byteclk = (u32)((u64)pixelclock * dpi_ndl /
(8 * dsi_ndl)), result = byteclk * 4 * 2 in u32 arithmetic. -/
def pclkToPll (d : Ddata) : Nat :=
  let byteclk := d.pixelclock * d.dpi_ndl / (8 * d.dsi_ndl % U32MOD) % U32MOD
  byteclk * 4 * 2 % U32MOD

/-- The frs_limits table of tc358768_calc_pll. -/
def frsLimits : List Nat :=
  [1000000000, 500000000, 250000000, 125000000, 62500000]

/-- The frs selection loop of tc358768_calc_pll: the first index i < 4 with
frs_limits[i+1] <= target < frs_limits[i]. -/
def findFrs (target : Nat) : Option Nat :=
  (List.range 4).find? fun i =>
    decide (target < frsLimits.getD i 0) &&
      decide (frsLimits.getD (i + 1) 0 ≤ target)

/-- The running state of the divider search of tc358768_calc_pll:
best_diff/best_pll/best_prd/best_fbd, plus a flag recording that the two
`break` statements have fired (they fire exactly when best_diff reaches 0). -/
structure Best where
  diff : Nat
  pll : Nat
  prd : Nat
  fbd : Nat
  done : Bool
deriving DecidableEq, Repr

/-- One candidate frequency of the divider search:
(u32)div_u64((u64)refclk * (fbd + 1), (prd + 1) * (1 << frs)) with the
divisor computed in u32 arithmetic. -/
def pllCand (refclk frs prd fbd : Nat) : Nat :=
  refclk * (fbd + 1) / ((prd + 1) * (1 <<< frs) % U32MOD) % U32MOD

/-- One iteration of the nested divider loops of tc358768_calc_pll, for the
candidate pair c = (prd, fbd): skip a candidate outside [min_pll, max_pll),
record a candidate strictly improving best_diff, and stop (done) as soon as
best_diff reaches 0. -/
def searchStep (refclk target minPll maxPll frs : Nat) (s : Best)
    (c : Nat × Nat) : Best :=
  if s.done then s
  else
    let pll := pllCand refclk frs c.1 c.2
    if maxPll ≤ pll ∨ pll < minPll then s
    else
      let diff := max pll target - min pll target
      if diff < s.diff then ⟨diff, pll, c.1, c.2, decide (diff = 0)⟩ else s

/-- The candidate pairs (prd, fbd) in the loop order of tc358768_calc_pll:
prd ascending in [0, 16) outer, fbd ascending in [0, 512) inner. -/
def candPairs : List (Nat × Nat) :=
  (List.range 16).flatMap fun prd =>
    (List.range 512).map fun fbd => (prd, fbd)

/-- The initial search state: best_diff = UINT_MAX. -/
def initBest : Best := ⟨UINT_MAX, 0, 0, 0, false⟩

/-- The complete divider search of tc358768_calc_pll. -/
def searchBest (refclk target minPll maxPll frs : Nat) : Best :=
  candPairs.foldl (searchStep refclk target minPll maxPll frs) initBest

/-- tc358768_calc_pll: compute the target from the pixel clock, select the
frs bracket, run the divider search, and on success store fbd, prd, frs and
bitclk = best_pll / 2 into the device data; failures return -EINVAL (-22)
with the device data unchanged. -/
def calcPll (d : Ddata) : Ddata × Int :=
  let target := pclkToPll d
  match findFrs target with
  | none => (d, -22)
  | some frs =>
    let maxPll := frsLimits.getD frs 0
    let minPll := frsLimits.getD (frs + 1) 0
    let b := searchBest d.refclk target minPll maxPll frs
    if b.diff = UINT_MAX then (d, -22)
    else ({ d with
            fbd := b.fbd
            prd := b.prd
            frs := frs
            bitclk := b.pll / 2 }, 0)

/-- tc358768_setup_pll: program PLLCTL0, enable the PLL without its clock
output (CKEN = 0), wait 1-2 ms for lock, then enable the clock output
(CKEN = 1).  All write results are ignored (the C function returns void). -/
def setupPll (d : Ddata) (dev : Dev) : Dev :=
  let dev := (tcWrite dev PLLCTL0 ((d.prd <<< 12) ||| d.fbd)).1
  let dev := (tcWrite dev PLLCTL1
    ((d.frs <<< 10) ||| (0x2 <<< 8) ||| (0 <<< 4) ||| (1 <<< 1) ||| (1 <<< 0))).1
  let dev := sleepUsEv dev 1000 2000
  (tcWrite dev PLLCTL1
    ((d.frs <<< 10) ||| (0x2 <<< 8) ||| (1 <<< 4) ||| (1 <<< 1) ||| (1 <<< 0))).1

/-- The value written to the DSI_HSW register by tc358768_power_on:
(u32)div_u64((hsw + hbp) * ((u64)bitclk / 4) * dsi_ndl, pixelclock), where
hsw + hbp is a u32 sum and the two products are u64 products. -/
def hswVal (d : Ddata) : Nat :=
  (d.hsw + d.hbp) % U32MOD * (d.bitclk % U32MOD / 4) % U64MOD * d.dsi_ndl
    % U64MOD / d.pixelclock % U32MOD

/-- tc358768_power_on: the full bring-up write sequence.  The C function
returns void and ignores every register-access result. -/
def powerOn (d : Ddata) (dev : Dev) : Dev :=
  let dev := swReset dev
  let dev := setupPll d dev
  let dev := (tcWrite dev VSDLY 1).1
  let dev := (tcWrite dev DATAFMT
    ((0x3 <<< 4) ||| (1 <<< 2) ||| (1 <<< 1) ||| (1 <<< 0))).1
  let dev := (tcWrite dev DSITX_DT 0x003e).1
  let dev := (tcWrite dev CLW_CNTRL 0x0000).1
  let dev := (tcWrite dev D0W_CNTRL 0x0000).1
  let dev := (tcWrite dev D1W_CNTRL 0x0000).1
  let dev := (tcWrite dev D2W_CNTRL 0x0000).1
  let dev := (tcWrite dev D3W_CNTRL 0x0000).1
  let dev := (tcWrite dev LINEINITCNT 0x00002c88).1
  let dev := (tcWrite dev LPTXTIMECNT 0x00000005).1
  let dev := (tcWrite dev TCLK_HEADERCNT 0x00001f06).1
  let dev := (tcWrite dev TCLK_TRAILCNT 0x00000003).1
  let dev := (tcWrite dev THS_HEADERCNT 0x00000606).1
  let dev := (tcWrite dev TWAKEUP 0x00004a88).1
  let dev := (tcWrite dev TCLK_POSTCNT 0x0000000b).1
  let dev := (tcWrite dev THS_TRAILCNT 0x00000004).1
  let dev := (tcWrite dev HSTXVREGEN 0x0000001f).1
  let dev := (tcWrite dev TXOPTIONCNTRL 0x1).1
  let dev := (xferShort dev MIPI_DSI_DCS_SHORT_WRITE MIPI_DCS_EXIT_SLEEP_MODE 0).1
  let dev := (tcWrite dev BTACNTRL1 ((0x5 <<< 16) ||| 0x5)).1
  let dev := (tcWrite dev STARTCNTRL 0x1).1
  let dev := (tcWrite dev DSI_EVENT 1).1
  let dev := (tcWrite dev DSI_VSW (d.vsw + d.vbp)).1
  let dev := (tcWrite dev DSI_VBPR 0).1
  let dev := (tcWrite dev DSI_VACT 1920).1
  let dev := (tcWrite dev DSI_HSW (hswVal d)).1
  let dev := (tcWrite dev DSI_HBPR 0).1
  let dev := (tcWrite dev DSI_HACT (1200 * 3)).1
  let dev := (tcWrite dev DSI_START 0x1).1
  let dev := (tcWrite dev DSI_CONFW ((5 <<< 29) ||| (0x3 <<< 24) ||| 0xa7)).1
  let dev := (tcWrite dev DSI_CONFW ((6 <<< 29) ||| (0x3 <<< 24) ||| 0x8000)).1
  let dev := (tcUpdateBits dev PP_MISC (0x3 <<< 14) 0).1
  (tcUpdateBits dev CONFCTL (1 <<< 6) (1 <<< 6)).1

/-- tc358768_power_off: set FrmStop, wait at least one frame (msleep 50),
clear PP_en, set RstPtr.  The C function returns void and ignores every
register-access result. -/
def powerOff (dev : Dev) : Dev :=
  let dev := (tcUpdateBits dev PP_MISC (1 <<< 15) (1 <<< 15)).1
  let dev := sleepMsEv dev 50
  let dev := (tcUpdateBits dev CONFCTL (1 <<< 6) 0).1
  (tcUpdateBits dev PP_MISC (1 <<< 14) (1 <<< 14)).1

/-- tc358768_enable: solve the PLL (aborting on solver failure), wait for
clocks, run power_on, then issue the two panel short commands.  The GPIO
reset-line step touches no register and is not a bus event. -/
def enable (d : Ddata) (dev : Dev) : Ddata × Dev × Int :=
  match calcPll d with
  | (d2, r) =>
    if r ≠ 0 then (d, dev, r)
    else
      let dev := sleepUsEv dev 1000 2000
      let dev := powerOn d2 dev
      let dev := (xferShort dev MIPI_DSI_TURN_ON_PERIPHERAL 0 0).1
      let dev := (xferShort dev MIPI_DSI_DCS_SHORT_WRITE_PARAM
        MIPI_DCS_SET_PIXEL_FORMAT MIPI_DCS_PIXEL_FMT_24BIT).1
      (d2, dev, 0)

/-- tc358768_disable: run power_off (the GPIO step touches no register). -/
def disable (dev : Dev) : Dev :=
  powerOff dev

/-- A device state with a given register file and fault model, before any
transaction. -/
def initDev (regs : Nat → Nat) (fail : Nat → Bool) : Dev :=
  ⟨regs, [], 0, fail⟩

/-- The all-zero register file. -/
def regs0 : Nat → Nat := fun _ => 0

/-- The fault model under which no transaction fails. -/
def noFail : Nat → Bool := fun _ => false

/-- The fault model under which exactly the first transaction fails. -/
def failFirst : Nat → Bool := fun i => i == 0

/-- The configuration the driver probe installs (FORTEC panel): pixel clock
154.9 MHz, 24 DPI lanes, 4 DSI lanes, refclk = pixelclock / 4. -/
def fortec : Ddata :=
  { dpi_ndl := 24
    dsi_ndl := 4
    fbd := 0
    prd := 0
    frs := 0
    bitclk := 0
    pixelclock := 154900000
    refclk := 38725000
    hsw := 1
    hbp := 60
    vsw := 1
    vbp := 25 }

/- Helper lemmas about the divider search. -/

/-- Once the break flag is set, one search step leaves the state unchanged. -/
theorem searchStep_of_done (r t mn mx f : Nat) (s : Best) (c : Nat × Nat)
    (h : s.done = true) : searchStep r t mn mx f s c = s := by
  simp [searchStep, h]

/-- Once the break flag is set, the rest of the search is a no-op: this is
the denotational content of the two break statements. -/
theorem foldl_searchStep_done (r t mn mx f : Nat) (s : Best)
    (h : s.done = true) (l : List (Nat × Nat)) :
    l.foldl (searchStep r t mn mx f) s = s := by
  induction l with
  | nil => rfl
  | cons c l ih => rw [List.foldl_cons, searchStep_of_done r t mn mx f s c h, ih]

/-- The first 64 candidate pairs, in loop order. -/
def candHead : List (Nat × Nat) := (List.range 64).map fun fbd => (0, fbd)

/-- The candidate pairs after the first 64, in loop order. -/
def candTail : List (Nat × Nat) :=
  ((List.range 448).map fun fbd => (0, 64 + fbd)) ++
    ((List.range 15).map Nat.succ).flatMap fun prd =>
      (List.range 512).map fun fbd => (prd, fbd)

theorem candPairs_split : candPairs = candHead ++ candTail := by
  unfold candPairs candHead candTail
  rw [show (16 : Nat) = 15 + 1 from rfl, List.range_succ_eq_map,
    List.flatMap_cons,
    show (512 : Nat) = 64 + 448 from rfl, List.range_add]
  simp [List.map_map, Function.comp_def]

/-- The FORTEC configuration as updated by a successful tc358768_calc_pll. -/
def fortecSolved : Ddata :=
  { fortec with fbd := 23, bitclk := 464700000 }

set_option maxRecDepth 40000 in
theorem searchBest_fortec :
    searchBest 38725000 929400000 500000000 1000000000 0 =
      ⟨0, 929400000, 0, 23, true⟩ := by
  unfold searchBest
  rw [candPairs_split, List.foldl_append]
  have h : candHead.foldl
      (searchStep 38725000 929400000 500000000 1000000000 0) initBest =
      ⟨0, 929400000, 0, 23, true⟩ := by decide
  rw [h, foldl_searchStep_done _ _ _ _ _ _ rfl]

theorem calcPll_fortec : calcPll fortec = (fortecSolved, 0) := by
  have h1 : pclkToPll fortec = 929400000 := by decide
  have h2 : findFrs 929400000 = some 0 := by decide
  unfold calcPll
  rw [h1]
  simp only [h2]
  simp only [show fortec.refclk = 38725000 from rfl,
    show frsLimits.getD 0 0 = 1000000000 from rfl,
    show frsLimits.getD (0 + 1) 0 = 500000000 from rfl, searchBest_fortec]
  decide

/-- A configuration on which the divider search picks a candidate whose
u64 quotient refclk * (fbd + 1) / divisor exceeds 2^32, so that the u32 cast
in tc358768_calc_pll wraps: 849161216 * 6 / 1 = 5094967296 = 2^32 +
800000000.  The target is 800000000 (pixelclock 100 MHz, 8 DPI lanes, 1 DSI
lane), and the wrapped candidate is an exact match. -/
def cexC1 : Ddata :=
  { dpi_ndl := 8
    dsi_ndl := 1
    fbd := 0
    prd := 0
    frs := 0
    bitclk := 0
    pixelclock := 100000000
    refclk := 849161216
    hsw := 0
    hbp := 0
    vsw := 0
    vbp := 0 }

/-- The result tc358768_calc_pll computes on cexC1. -/
def cexC1Solved : Ddata :=
  { cexC1 with fbd := 5, bitclk := 400000000 }

set_option maxRecDepth 40000 in
theorem searchBest_cexC1 :
    searchBest 849161216 800000000 500000000 1000000000 0 =
      ⟨0, 800000000, 0, 5, true⟩ := by
  unfold searchBest
  rw [candPairs_split, List.foldl_append]
  have h : candHead.foldl
      (searchStep 849161216 800000000 500000000 1000000000 0) initBest =
      ⟨0, 800000000, 0, 5, true⟩ := by decide
  rw [h, foldl_searchStep_done _ _ _ _ _ _ rfl]

theorem calcPll_cexC1 : calcPll cexC1 = (cexC1Solved, 0) := by
  have h1 : pclkToPll cexC1 = 800000000 := by decide
  have h2 : findFrs 800000000 = some 0 := by decide
  unfold calcPll
  rw [h1]
  simp only [h2]
  simp only [show cexC1.refclk = 849161216 from rfl,
    show frsLimits.getD 0 0 = 1000000000 from rfl,
    show frsLimits.getD (0 + 1) 0 = 500000000 from rfl, searchBest_cexC1]
  decide

/-- Closed form of the frs selection loop. -/
theorem findFrs_eq (t : Nat) : findFrs t =
    if 1000000000 ≤ t then none
    else if 500000000 ≤ t then some 0
    else if 250000000 ≤ t then some 1
    else if 125000000 ≤ t then some 2
    else if 62500000 ≤ t then some 3
    else none := by
  unfold findFrs
  rw [show List.range 4 = [0, 1, 2, 3] from rfl]
  rcases Nat.lt_or_ge t 62500000 with h0 | h0
  · have a1 : ¬ 1000000000 ≤ t := by omega
    have a2 : ¬ 500000000 ≤ t := by omega
    have a3 : ¬ 250000000 ≤ t := by omega
    have a4 : ¬ 125000000 ≤ t := by omega
    have a5 : ¬ 62500000 ≤ t := by omega
    simp [List.find?, frsLimits, a1, a2, a3, a4, a5]
  rcases Nat.lt_or_ge t 125000000 with h1 | h1
  · have a1 : ¬ 1000000000 ≤ t := by omega
    have a2 : ¬ 500000000 ≤ t := by omega
    have a3 : ¬ 250000000 ≤ t := by omega
    have a4 : ¬ 125000000 ≤ t := by omega
    have a5 : t < 125000000 := by omega
    simp [List.find?, frsLimits, a1, a2, a3, a4, a5, h0]
  rcases Nat.lt_or_ge t 250000000 with h2 | h2
  · have a1 : ¬ 500000000 ≤ t := by omega
    have a2 : ¬ 250000000 ≤ t := by omega
    have a3 : ¬ 1000000000 ≤ t := by omega
    simp [List.find?, frsLimits, a1, a2, a3, h1, h2]
  rcases Nat.lt_or_ge t 500000000 with h3 | h3
  · have a1 : ¬ 500000000 ≤ t := by omega
    have a2 : ¬ 1000000000 ≤ t := by omega
    simp [List.find?, frsLimits, a1, a2, h2, h3]
  rcases Nat.lt_or_ge t 1000000000 with h4 | h4
  · have a1 : ¬ 1000000000 ≤ t := by omega
    simp [List.find?, frsLimits, a1, h3, h4]
  · have b1 : ¬ t < 1000000000 := by omega
    have b2 : ¬ t < 500000000 := by omega
    have b3 : ¬ t < 250000000 := by omega
    have b4 : ¬ t < 125000000 := by omega
    simp [List.find?, frsLimits, h4, b1, b2, b3, b4]

/-- C3: the bracket selector maps a target t to range-selector index i
exactly when frs_limits[i+1] <= t < frs_limits[i] (a shared boundary such as
500000000 selects the lower index, e.g. the [500e6, 1e9) bracket), targets
at or above 10^9 or below 62.5e6 select no bracket, and in that case
tc358768_calc_pll fails with -EINVAL leaving the device data unchanged, i.e.
no approximate solution is returned. -/
theorem C3_bracket_selection (t i : Nat) :
    (findFrs t = some i ↔
      i < 4 ∧ frsLimits.getD (i + 1) 0 ≤ t ∧ t < frsLimits.getD i 0) ∧
    ((1000000000 ≤ t ∨ t < 62500000) → findFrs t = none) ∧
    (∀ d : Ddata, findFrs (pclkToPll d) = none → calcPll d = (d, -22)) := by
  refine ⟨?_, ?_, ?_⟩
  · rw [findFrs_eq]
    match i with
    | 0 => split_ifs <;> simp [frsLimits] <;> omega
    | 1 => split_ifs <;> simp [frsLimits] <;> omega
    | 2 => split_ifs <;> simp [frsLimits] <;> omega
    | 3 => split_ifs <;> simp [frsLimits] <;> omega
    | (n + 4) => split_ifs <;> simp [frsLimits] <;> omega
  · intro h
    rw [findFrs_eq]
    split_ifs <;> first | rfl | omega
  · intro d h
    unfold calcPll
    simp only [h]

/-- C3 witness: the boundary target 500000000 selects index 0 (the
[500e6, 1e9) bracket), 10^9 and 62499999 select no bracket. -/
theorem C3_bracket_selection_witness :
    findFrs 500000000 = some 0 ∧ findFrs 1000000000 = none ∧
      findFrs 62499999 = none := by
  refine ⟨?_, ?_, ?_⟩
  · exact (C3_bracket_selection 500000000 0).1.mpr (by decide)
  · exact (C3_bracket_selection 1000000000 0).2.1 (by decide)
  · exact (C3_bracket_selection 62499999 0).2.1 (by decide)

/-- The low 16 bits or-ed with the remaining bits shifted back in place
recover the original value. -/
theorem lor_low_high (v : Nat) : v % 65536 ||| (v >>> 16 <<< 16) = v := by
  apply Nat.eq_of_testBit_eq
  intro i
  rw [Nat.testBit_lor, show (65536 : Nat) = 2 ^ 16 from rfl,
    Nat.testBit_mod_two_pow, Nat.testBit_shiftLeft, Nat.testBit_shiftRight]
  rcases Nat.lt_or_ge i 16 with h | h
  · simp [h, Nat.not_le.2 h]
  · have h2 : 16 + (i - 16) = i := by omega
    simp [h, Nat.not_lt.2 h, h2]

/-- A u32 value shifted right by 16 fits in 16 bits. -/
theorem shiftRight16_lt {v : Nat} (h : v < U32MOD) : v >>> 16 < U16MOD := by
  rw [Nat.shiftRight_eq_div_pow]
  exact Nat.div_lt_of_lt_mul (by simpa [U32MOD, U16MOD] using h)

/-- The fault model is an input: no operation changes it. -/
theorem regmapWrite_fail (dev : Dev) (reg val : Nat) :
    (regmapWrite dev reg val).1.fail = dev.fail := by
  unfold regmapWrite
  split <;> rfl

theorem regmapRead_fail (dev : Dev) (reg : Nat) :
    (regmapRead dev reg).1.fail = dev.fail := by
  unfold regmapRead
  split <;> rfl

theorem tcWrite_fail (dev : Dev) (reg val : Nat) :
    (tcWrite dev reg val).1.fail = dev.fail := by
  simp only [tcWrite]
  split
  · exact regmapWrite_fail ..
  · split
    · exact regmapWrite_fail ..
    · rw [regmapWrite_fail, regmapWrite_fail]

/-- A successful regmap write, as an explicit state transformer. -/
theorem regmapWrite_ok (dev : Dev) (reg val : Nat)
    (h : dev.fail dev.txCount = false) :
    regmapWrite dev reg val =
      ({ dev with
         regs := fun r => if r = reg then val % U16MOD else dev.regs r
         trace := dev.trace ++ [.wr reg (val % U16MOD)]
         txCount := dev.txCount + 1 }, 0) := by
  simp [regmapWrite, h]

/-- A successful regmap read, as an explicit state transformer. -/
theorem regmapRead_ok (dev : Dev) (reg : Nat)
    (h : dev.fail dev.txCount = false) :
    regmapRead dev reg =
      ({ dev with
         trace := dev.trace ++ [.rd reg]
         txCount := dev.txCount + 1 }, (0 : Int), dev.regs reg) := by
  simp [regmapRead, h]

/-- A successful 32-bit-width write, as an explicit state transformer. -/
theorem tcWrite32_ok (dev : Dev) (reg val : Nat)
    (h1 : 0x100 ≤ reg) (h2 : reg < 0x600) (hnf : ∀ i, dev.fail i = false) :
    tcWrite dev reg val =
      ({ dev with
         regs := fun r =>
           if r = reg + 2 then (val % U32MOD) >>> 16 % U16MOD
           else if r = reg then val % U32MOD % U16MOD else dev.regs r
         trace := dev.trace ++ [.wr reg (val % U32MOD % U16MOD),
           .wr (reg + 2) ((val % U32MOD) >>> 16 % U16MOD)]
         txCount := dev.txCount + 1 + 1 }, 0) := by
  have hc : ¬ (reg < 0x100 ∨ 0x600 ≤ reg) := by omega
  simp [tcWrite, regmapWrite, hc, hnf, List.append_assoc]

/-- A successful 32-bit-width read, as an explicit state transformer. -/
theorem tcRead32_ok (dev : Dev) (reg : Nat)
    (h1 : 0x100 ≤ reg) (h2 : reg < 0x600) (hnf : ∀ i, dev.fail i = false) :
    tcRead dev reg =
      ({ dev with
         trace := dev.trace ++ [.rd reg, .rd (reg + 2)]
         txCount := dev.txCount + 1 + 1 }, (0 : Int),
        dev.regs reg ||| (dev.regs (reg + 2) <<< 16)) := by
  have hc : ¬ (reg < 0x100 ∨ 0x600 ≤ reg) := by omega
  simp [tcRead, regmapRead, hc, hnf, List.append_assoc]

/-- C7: register access dispatches by width.  An address below 0x100 or at
or above 0x600 is a single 16-bit transaction for both write and read; an
address in between is two sequential 16-bit transactions, the low half at
the address and the high half at address + 2, the 32-bit read reassembles
low | (high << 16), and absent bus errors reading back a just-written
32-bit register recovers the written 32-bit value. -/
theorem C7_width_dispatch (dev : Dev) (reg val : Nat) :
    (reg < 0x100 ∨ 0x600 ≤ reg →
      (tcWrite dev reg val).1.trace =
        dev.trace ++ [.wr reg (val % U32MOD % U16MOD)] ∧
      (tcRead dev reg).1.trace = dev.trace ++ [.rd reg]) ∧
    (0x100 ≤ reg → reg < 0x600 → (∀ i, dev.fail i = false) →
      (tcWrite dev reg val).1.trace =
        dev.trace ++ [.wr reg (val % U32MOD % U16MOD),
          .wr (reg + 2) ((val % U32MOD) >>> 16)] ∧
      (tcRead dev reg).2.2 = dev.regs reg ||| (dev.regs (reg + 2) <<< 16)) ∧
    (0x100 ≤ reg → reg < 0x600 → (∀ i, dev.fail i = false) → val < U32MOD →
      (tcRead (tcWrite dev reg val).1 reg).2.2 = val) := by
  refine ⟨?_, ?_, ?_⟩
  · intro h
    unfold tcWrite tcRead regmapWrite regmapRead
    simp only [if_pos h]
    constructor
    · split <;> rfl
    · split <;> rfl
  · intro h1 h2 hnf
    have hm : ((val % U32MOD) >>> 16) % U16MOD = (val % U32MOD) >>> 16 :=
      Nat.mod_eq_of_lt (shiftRight16_lt (Nat.mod_lt _ (by decide)))
    rw [tcWrite32_ok dev reg val h1 h2 hnf, tcRead32_ok dev reg h1 h2 hnf, hm]
    exact ⟨rfl, rfl⟩
  · intro h1 h2 hnf hv
    have hne1 : reg ≠ reg + 2 := by omega
    have hd2 : ∀ i, (tcWrite dev reg val).1.fail i = false := by
      intro i
      rw [tcWrite_fail]
      exact hnf i
    rw [tcRead32_ok _ reg h1 h2 hd2]
    dsimp only
    rw [tcWrite32_ok dev reg val h1 h2 hnf]
    dsimp only
    rw [if_neg hne1, if_pos rfl, if_pos rfl]
    rw [Nat.mod_eq_of_lt hv, Nat.mod_eq_of_lt (shiftRight16_lt (h := hv)),
      show U16MOD = 65536 from rfl]
    exact lor_low_high val

/-- C7 witness: the dispatch and the 32-bit read-back at concrete inputs:
16-bit register 0x0004, 32-bit register 0x0204, value 0xABCD1234. -/
theorem C7_width_dispatch_witness :
    (tcWrite (initDev regs0 noFail) 0x0004 74565).1.trace =
      (initDev regs0 noFail).trace ++ [.wr 0x0004 (74565 % U32MOD % U16MOD)] ∧
    (tcWrite (initDev regs0 noFail) 0x0204 0xABCD1234).1.trace =
      (initDev regs0 noFail).trace ++
        [.wr 0x0204 (0xABCD1234 % U32MOD % U16MOD),
         .wr 0x0206 ((0xABCD1234 % U32MOD) >>> 16)] ∧
    (tcRead (tcWrite (initDev regs0 noFail) 0x0204 0xABCD1234).1 0x0204).2.2 =
      0xABCD1234 := by
  refine ⟨?_, ?_, ?_⟩
  · exact ((C7_width_dispatch (initDev regs0 noFail) 0x0004 74565).1
      (by decide)).1
  · exact (((C7_width_dispatch (initDev regs0 noFail) 0x0204
      0xABCD1234).2.1 (by decide) (by decide) (fun i => rfl))).1
  · exact ((C7_width_dispatch (initDev regs0 noFail) 0x0204
      0xABCD1234).2.2 (by decide) (by decide) (fun i => rfl) (by decide))

/-- A successful 16-bit-width write, as an explicit state transformer. -/
theorem tcWrite16_ok (dev : Dev) (reg val : Nat)
    (h : reg < 0x100 ∨ 0x600 ≤ reg) (hf : dev.fail dev.txCount = false) :
    tcWrite dev reg val =
      ({ dev with
         regs := fun r => if r = reg then val % U32MOD % U16MOD else dev.regs r
         trace := dev.trace ++ [.wr reg (val % U32MOD % U16MOD)]
         txCount := dev.txCount + 1 }, 0) := by
  simp [tcWrite, regmapWrite, h, hf]

/-- A successful 16-bit-width read, as an explicit state transformer. -/
theorem tcRead16_ok (dev : Dev) (reg : Nat)
    (h : reg < 0x100 ∨ 0x600 ≤ reg) (hf : dev.fail dev.txCount = false) :
    tcRead dev reg =
      ({ dev with
         trace := dev.trace ++ [.rd reg]
         txCount := dev.txCount + 1 }, (0 : Int), dev.regs reg) := by
  simp [tcRead, regmapRead, h, hf]

/-- When the first 16-bit read transaction fails, tcRead aborts at once for
either width, performing no further transaction. -/
theorem tcRead_failFirst (dev : Dev) (reg : Nat)
    (hf : dev.fail dev.txCount = true) :
    tcRead dev reg =
      ({ dev with
         trace := dev.trace ++ [.rd reg]
         txCount := dev.txCount + 1 }, (-5 : Int), 0) := by
  unfold tcRead
  split
  · simp [regmapRead, hf]
  · simp [regmapRead, hf]

/-- A failed 16-bit-width write, as an explicit state transformer: the
transaction is attempted, the register file is untouched, -EIO returns. -/
theorem tcWrite16_fail (dev : Dev) (reg val : Nat)
    (h : reg < 0x100 ∨ 0x600 ≤ reg) (hf : dev.fail dev.txCount = true) :
    tcWrite dev reg val =
      ({ dev with
         trace := dev.trace ++ [.wr reg (val % U32MOD % U16MOD)]
         txCount := dev.txCount + 1 }, -5) := by
  simp [tcWrite, regmapWrite, h, hf]

/-- A 32-bit-width write whose first (low-half) transaction fails: the high
half is never attempted and -EIO returns. -/
theorem tcWrite32_fail1 (dev : Dev) (reg val : Nat)
    (h1 : 0x100 ≤ reg) (h2 : reg < 0x600)
    (hf : dev.fail dev.txCount = true) :
    tcWrite dev reg val =
      ({ dev with
         trace := dev.trace ++ [.wr reg (val % U32MOD % U16MOD)]
         txCount := dev.txCount + 1 }, -5) := by
  have hc : ¬ (reg < 0x100 ∨ 0x600 ≤ reg) := by omega
  simp [tcWrite, regmapWrite, hc, hf]

/-- A 32-bit-width write whose second (high-half) transaction fails: the
low half is already stored, -EIO returns. -/
theorem tcWrite32_fail2 (dev : Dev) (reg val : Nat)
    (h1 : 0x100 ≤ reg) (h2 : reg < 0x600)
    (hf0 : dev.fail dev.txCount = false)
    (hf1 : dev.fail (dev.txCount + 1) = true) :
    tcWrite dev reg val =
      ({ dev with
         regs := fun r => if r = reg then val % U32MOD % U16MOD
           else dev.regs r
         trace := dev.trace ++ [.wr reg (val % U32MOD % U16MOD),
           .wr (reg + 2) ((val % U32MOD) >>> 16 % U16MOD)]
         txCount := dev.txCount + 1 + 1 }, -5) := by
  have hc : ¬ (reg < 0x100 ∨ 0x600 ≤ reg) := by omega
  simp [tcWrite, regmapWrite, hc, hf0, hf1, List.append_assoc]

/-- A successful 32-bit-width read under pointwise no-fault hypotheses. -/
theorem tcRead32_ok2 (dev : Dev) (reg : Nat)
    (h1 : 0x100 ≤ reg) (h2 : reg < 0x600)
    (hf0 : dev.fail dev.txCount = false)
    (hf1 : dev.fail (dev.txCount + 1) = false) :
    tcRead dev reg =
      ({ dev with
         trace := dev.trace ++ [.rd reg, .rd (reg + 2)]
         txCount := dev.txCount + 1 + 1 }, (0 : Int),
        dev.regs reg ||| (dev.regs (reg + 2) <<< 16)) := by
  have hc : ¬ (reg < 0x100 ∨ 0x600 ≤ reg) := by omega
  simp [tcRead, regmapRead, hc, hf0, hf1, List.append_assoc]

/-- A 32-bit-width read whose second (high-half) transaction fails: both
read transactions are on the wire, -EIO returns. -/
theorem tcRead32_fail2 (dev : Dev) (reg : Nat)
    (h1 : 0x100 ≤ reg) (h2 : reg < 0x600)
    (hf0 : dev.fail dev.txCount = false)
    (hf1 : dev.fail (dev.txCount + 1) = true) :
    tcRead dev reg =
      ({ dev with
         trace := dev.trace ++ [.rd reg, .rd (reg + 2)]
         txCount := dev.txCount + 1 + 1 }, (-5 : Int), 0) := by
  have hc : ¬ (reg < 0x100 ∨ 0x600 ≤ reg) := by omega
  simp [tcRead, regmapRead, hc, hf0, hf1, List.append_assoc]

/-- The masked read-modify-write result is a u32 value. -/
theorem tmp_lt_u32 (orig m v : Nat) :
    (orig &&& (UINT_MAX ^^^ m % U32MOD)) ||| (v % U32MOD &&& m % U32MOD) <
      U32MOD := by
  have h1 : UINT_MAX ^^^ m % U32MOD < 2 ^ 32 :=
    Nat.xor_lt_two_pow (by decide) (Nat.mod_lt _ (by decide))
  have h2 : orig &&& (UINT_MAX ^^^ m % U32MOD) < 2 ^ 32 :=
    Nat.and_lt_two_pow orig h1
  have h3 : v % U32MOD &&& m % U32MOD < 2 ^ 32 :=
    Nat.and_lt_two_pow _ (Nat.mod_lt _ (by decide))
  exact Nat.or_lt_two_pow h2 h3

/-- C8: update_bits reads the current value orig (one 16-bit read for a
16-bit address, two reassembled reads for a 32-bit address), computes
(orig AND NOT mask) OR (val AND mask) in u32 arithmetic, issues a bus write
only when that result differs from orig (no write transaction when equal,
and then the register file is untouched), returns 0 on success; a bus error
on either read transaction surfaces as the error code with no write
attempted and no further transaction after the failed read; a bus error on
either write transaction surfaces as the error code with no retry and no
further transaction after the failed write. -/
theorem C8_update_bits (dev : Dev) (reg mask val : Nat) :
    ((∀ i, dev.fail i = false) → (reg < 0x100 ∨ 0x600 ≤ reg) →
      (tcUpdateBits dev reg mask val).2 = 0 ∧
      ((dev.regs reg &&& (UINT_MAX ^^^ mask % U32MOD)) |||
          (val % U32MOD &&& mask % U32MOD) = dev.regs reg →
        (tcUpdateBits dev reg mask val).1.trace = dev.trace ++ [.rd reg] ∧
        (tcUpdateBits dev reg mask val).1.regs = dev.regs) ∧
      (∀ tmp, tmp = (dev.regs reg &&& (UINT_MAX ^^^ mask % U32MOD)) |||
          (val % U32MOD &&& mask % U32MOD) → tmp ≠ dev.regs reg →
        (tcUpdateBits dev reg mask val).1.trace =
          dev.trace ++ [.rd reg, .wr reg (tmp % U16MOD)] ∧
        (tcUpdateBits dev reg mask val).1.regs reg = tmp % U16MOD ∧
        ∀ r, r ≠ reg → (tcUpdateBits dev reg mask val).1.regs r =
          dev.regs r)) ∧
    ((∀ i, dev.fail i = false) → 0x100 ≤ reg → reg < 0x600 →
      (tcUpdateBits dev reg mask val).2 = 0 ∧
      ∀ orig, orig = dev.regs reg ||| (dev.regs (reg + 2) <<< 16) →
        ((orig &&& (UINT_MAX ^^^ mask % U32MOD)) |||
            (val % U32MOD &&& mask % U32MOD) = orig →
          (tcUpdateBits dev reg mask val).1.trace =
            dev.trace ++ [.rd reg, .rd (reg + 2)] ∧
          (tcUpdateBits dev reg mask val).1.regs = dev.regs) ∧
        (∀ tmp, tmp = (orig &&& (UINT_MAX ^^^ mask % U32MOD)) |||
            (val % U32MOD &&& mask % U32MOD) → tmp ≠ orig →
          (tcUpdateBits dev reg mask val).1.trace =
            dev.trace ++ [.rd reg, .rd (reg + 2), .wr reg (tmp % U16MOD),
              .wr (reg + 2) (tmp >>> 16)] ∧
          (tcUpdateBits dev reg mask val).1.regs reg = tmp % U16MOD ∧
          (tcUpdateBits dev reg mask val).1.regs (reg + 2) = tmp >>> 16 ∧
          ∀ r, r ≠ reg → r ≠ reg + 2 →
            (tcUpdateBits dev reg mask val).1.regs r = dev.regs r)) ∧
    (dev.fail dev.txCount = true →
      (tcUpdateBits dev reg mask val).2 = -5 ∧
      (tcUpdateBits dev reg mask val).1.trace = dev.trace ++ [.rd reg] ∧
      (tcUpdateBits dev reg mask val).1.regs = dev.regs) ∧
    (0x100 ≤ reg → reg < 0x600 → dev.fail dev.txCount = false →
      dev.fail (dev.txCount + 1) = true →
      (tcUpdateBits dev reg mask val).2 = -5 ∧
      (tcUpdateBits dev reg mask val).1.trace =
        dev.trace ++ [.rd reg, .rd (reg + 2)] ∧
      (tcUpdateBits dev reg mask val).1.regs = dev.regs) ∧
    ((reg < 0x100 ∨ 0x600 ≤ reg) → dev.fail dev.txCount = false →
      dev.fail (dev.txCount + 1) = true →
      ∀ tmp, tmp = (dev.regs reg &&& (UINT_MAX ^^^ mask % U32MOD)) |||
          (val % U32MOD &&& mask % U32MOD) → tmp ≠ dev.regs reg →
        (tcUpdateBits dev reg mask val).2 = -5 ∧
        (tcUpdateBits dev reg mask val).1.trace =
          dev.trace ++ [.rd reg, .wr reg (tmp % U16MOD)] ∧
        (tcUpdateBits dev reg mask val).1.regs = dev.regs) ∧
    (0x100 ≤ reg → reg < 0x600 → dev.fail dev.txCount = false →
      dev.fail (dev.txCount + 1) = false →
      dev.fail (dev.txCount + 2) = true →
      ∀ orig, orig = dev.regs reg ||| (dev.regs (reg + 2) <<< 16) →
      ∀ tmp, tmp = (orig &&& (UINT_MAX ^^^ mask % U32MOD)) |||
          (val % U32MOD &&& mask % U32MOD) → tmp ≠ orig →
        (tcUpdateBits dev reg mask val).2 = -5 ∧
        (tcUpdateBits dev reg mask val).1.trace =
          dev.trace ++ [.rd reg, .rd (reg + 2), .wr reg (tmp % U16MOD)] ∧
        (tcUpdateBits dev reg mask val).1.regs = dev.regs) ∧
    (0x100 ≤ reg → reg < 0x600 → dev.fail dev.txCount = false →
      dev.fail (dev.txCount + 1) = false →
      dev.fail (dev.txCount + 2) = false →
      dev.fail (dev.txCount + 3) = true →
      ∀ orig, orig = dev.regs reg ||| (dev.regs (reg + 2) <<< 16) →
      ∀ tmp, tmp = (orig &&& (UINT_MAX ^^^ mask % U32MOD)) |||
          (val % U32MOD &&& mask % U32MOD) → tmp ≠ orig →
        (tcUpdateBits dev reg mask val).2 = -5 ∧
        (tcUpdateBits dev reg mask val).1.trace =
          dev.trace ++ [.rd reg, .rd (reg + 2), .wr reg (tmp % U16MOD),
            .wr (reg + 2) (tmp >>> 16)] ∧
        (tcUpdateBits dev reg mask val).1.regs reg = tmp % U16MOD ∧
        ∀ r, r ≠ reg → (tcUpdateBits dev reg mask val).1.regs r =
          dev.regs r) := by
  refine ⟨?_, ?_, ?_, ?_, ?_, ?_, ?_⟩
  · intro hnf h16
    have hrd := tcRead16_ok dev reg h16 (hnf _)
    refine ⟨?_, ?_, ?_⟩
    · simp only [tcUpdateBits, hrd]
      rw [if_neg (by simp)]
      split
      · rw [tcWrite16_ok _ reg _ h16]
        exact hnf _
      · rfl
    · intro he
      simp only [tcUpdateBits, hrd]
      rw [if_neg (by simp), if_neg (by simpa using he)]
      exact ⟨rfl, rfl⟩
    · intro tmp htmp hne
      subst htmp
      simp only [tcUpdateBits, hrd]
      rw [if_neg (by simp), if_pos (by simpa using hne)]
      rw [tcWrite16_ok _ reg _ h16]
      on_goal 2 => exact hnf _
      have hm : (dev.regs reg &&& (UINT_MAX ^^^ mask % U32MOD)) |||
          (val % U32MOD &&& mask % U32MOD) < U32MOD := tmp_lt_u32 ..
      refine ⟨by simp [List.append_assoc, Nat.mod_eq_of_lt hm], ?_, ?_⟩
      · simp [Nat.mod_eq_of_lt hm]
      · intro r hr
        simp [hr, Nat.mod_eq_of_lt hm]
  · intro hnf h1 h2
    have hrd := tcRead32_ok dev reg h1 h2 hnf
    constructor
    · simp only [tcUpdateBits, hrd]
      rw [if_neg (by simp)]
      split
      · rw [tcWrite32_ok _ reg _ h1 h2]
        exact fun i => hnf i
      · rfl
    · intro orig horig
      subst horig
      constructor
      · intro he
        simp only [tcUpdateBits, hrd]
        rw [if_neg (by simp), if_neg (by simpa using he)]
        exact ⟨rfl, rfl⟩
      · intro tmp htmp hne
        subst htmp
        simp only [tcUpdateBits, hrd]
        rw [if_neg (by simp), if_pos (by simpa using hne)]
        rw [tcWrite32_ok _ reg _ h1 h2]
        on_goal 2 => exact fun i => hnf i
        have hm : ((dev.regs reg ||| (dev.regs (reg + 2) <<< 16)) &&&
            (UINT_MAX ^^^ mask % U32MOD)) |||
            (val % U32MOD &&& mask % U32MOD) < U32MOD := tmp_lt_u32 ..
        have hs := Nat.mod_eq_of_lt (shiftRight16_lt hm)
        have hne2 : reg ≠ reg + 2 := by omega
        refine ⟨by simp [List.append_assoc, Nat.mod_eq_of_lt hm, hs],
          ?_, ?_, ?_⟩
        · simp [hne2, Nat.mod_eq_of_lt hm]
        · simp [Nat.mod_eq_of_lt hm, hs]
        · intro r hr1 hr2
          simp [hr1, hr2]
  · intro hf
    simp only [tcUpdateBits, tcRead_failFirst dev reg hf]
    rw [if_pos (by decide)]
    exact ⟨rfl, rfl, rfl⟩
  · intro h1 h2 hf0 hf1
    simp only [tcUpdateBits, tcRead32_fail2 dev reg h1 h2 hf0 hf1]
    rw [if_pos (by decide)]
    exact ⟨rfl, rfl, rfl⟩
  · intro h16 hf0 hf1 tmp htmp hne
    subst htmp
    have hrd := tcRead16_ok dev reg h16 hf0
    simp only [tcUpdateBits, hrd]
    rw [if_neg (by simp), if_pos (by simpa using hne)]
    rw [tcWrite16_fail _ reg _ h16]
    on_goal 2 => exact hf1
    have hm : (dev.regs reg &&& (UINT_MAX ^^^ mask % U32MOD)) |||
        (val % U32MOD &&& mask % U32MOD) < U32MOD := tmp_lt_u32 ..
    exact ⟨rfl, by simp [List.append_assoc, Nat.mod_eq_of_lt hm], rfl⟩
  · intro h1 h2 hf0 hf1 hf2 orig horig tmp htmp hne
    subst horig
    subst htmp
    have hrd := tcRead32_ok2 dev reg h1 h2 hf0 hf1
    simp only [tcUpdateBits, hrd]
    rw [if_neg (by simp), if_pos (by simpa using hne)]
    rw [tcWrite32_fail1 _ reg _ h1 h2]
    on_goal 2 => exact hf2
    have hm : ((dev.regs reg ||| (dev.regs (reg + 2) <<< 16)) &&&
        (UINT_MAX ^^^ mask % U32MOD)) |||
        (val % U32MOD &&& mask % U32MOD) < U32MOD := tmp_lt_u32 ..
    exact ⟨rfl, by simp [List.append_assoc, Nat.mod_eq_of_lt hm], rfl⟩
  · intro h1 h2 hf0 hf1 hf2 hf3 orig horig tmp htmp hne
    subst horig
    subst htmp
    have hrd := tcRead32_ok2 dev reg h1 h2 hf0 hf1
    simp only [tcUpdateBits, hrd]
    rw [if_neg (by simp), if_pos (by simpa using hne)]
    rw [tcWrite32_fail2 _ reg _ h1 h2]
    on_goal 2 => exact hf2
    on_goal 2 => exact hf3
    have hm : ((dev.regs reg ||| (dev.regs (reg + 2) <<< 16)) &&&
        (UINT_MAX ^^^ mask % U32MOD)) |||
        (val % U32MOD &&& mask % U32MOD) < U32MOD := tmp_lt_u32 ..
    have hs := Nat.mod_eq_of_lt (shiftRight16_lt hm)
    refine ⟨rfl, by simp [List.append_assoc, Nat.mod_eq_of_lt hm, hs],
      ?_, ?_⟩
    · simp [Nat.mod_eq_of_lt hm]
    · intro r hr
      simp [hr]

/-- A register file with CONFCTL = 0x40 and all other registers zero. -/
def regsW : Nat → Nat := fun r => if r = 4 then 64 else 0

/-- A bus that fails exactly the second transaction. -/
def failSecond : Nat → Bool := fun i => i == 1

/-- A bus that fails exactly the third transaction. -/
def failAt2 : Nat → Bool := fun i => i == 2

/-- A bus that fails exactly the fourth transaction. -/
def failAt3 : Nat → Bool := fun i => i == 3

/-- C8 witness: at CONFCTL = 0x40, update_bits with mask 0x40 and value
0x40 performs only the read (no write); with value 0 it performs the read
and one write of 0; at the 32-bit register 0x204 it performs two reads and
two writes; on a bus failing the first transaction it returns -5 after the
read alone; on a bus failing the second transaction the 32-bit variant
returns -5 after the two reads, and the 16-bit variant returns -5 after
read plus the one failed write with the register file untouched; failures
of the low and high half-writes of the 32-bit write propagate likewise. -/
theorem C8_update_bits_witness :
    ((tcUpdateBits (initDev regsW noFail) 4 64 64).1.trace =
      (initDev regsW noFail).trace ++ [.rd 4] ∧
    (tcUpdateBits (initDev regsW noFail) 4 64 0).1.trace =
      (initDev regsW noFail).trace ++ [.rd 4, .wr 4 (0 % U16MOD)] ∧
    (tcUpdateBits (initDev regsW noFail) 516 64 64).1.trace =
      (initDev regsW noFail).trace ++
        [.rd 516, .rd 518, .wr 516 (64 % U16MOD), .wr 518 (64 >>> 16)]) ∧
    ((tcUpdateBits (initDev regsW failFirst) 4 64 64).2 = -5 ∧
    (tcUpdateBits (initDev regsW failFirst) 4 64 64).1.trace =
      (initDev regsW failFirst).trace ++ [.rd 4] ∧
    (tcUpdateBits (initDev regsW failSecond) 516 64 64).2 = -5 ∧
    (tcUpdateBits (initDev regsW failSecond) 516 64 64).1.trace =
      (initDev regsW failSecond).trace ++ [.rd 516, .rd 518]) ∧
    ((tcUpdateBits (initDev regsW failSecond) 4 64 0).2 = -5 ∧
    (tcUpdateBits (initDev regsW failSecond) 4 64 0).1.trace =
      (initDev regsW failSecond).trace ++ [.rd 4, .wr 4 (0 % U16MOD)] ∧
    (tcUpdateBits (initDev regsW failSecond) 4 64 0).1.regs = regsW) ∧
    ((tcUpdateBits (initDev regsW failAt2) 516 64 64).2 = -5 ∧
    (tcUpdateBits (initDev regsW failAt2) 516 64 64).1.trace =
      (initDev regsW failAt2).trace ++
        [.rd 516, .rd 518, .wr 516 (64 % U16MOD)] ∧
    (tcUpdateBits (initDev regsW failAt2) 516 64 64).1.regs = regsW) ∧
    ((tcUpdateBits (initDev regsW failAt3) 516 64 64).2 = -5 ∧
    (tcUpdateBits (initDev regsW failAt3) 516 64 64).1.trace =
      (initDev regsW failAt3).trace ++
        [.rd 516, .rd 518, .wr 516 (64 % U16MOD), .wr 518 (64 >>> 16)] ∧
    (tcUpdateBits (initDev regsW failAt3) 516 64 64).1.regs 516 =
      64 % U16MOD) := by
  refine ⟨⟨?_, ?_, ?_⟩, ⟨?_, ?_, ?_, ?_⟩, ⟨?_, ?_, ?_⟩, ⟨?_, ?_, ?_⟩,
    ⟨?_, ?_, ?_⟩⟩
  · exact (((C8_update_bits (initDev regsW noFail) 4 64 64).1
      (fun i => rfl) (by decide)).2.1 (by decide)).1
  · exact (((C8_update_bits (initDev regsW noFail) 4 64 0).1
      (fun i => rfl) (by decide)).2.2 0 (by decide) (by decide)).1
  · exact ((((C8_update_bits (initDev regsW noFail) 516 64 64).2.1
      (fun i => rfl) (by decide) (by decide)).2 _ rfl).2 64 (by decide)
      (by decide)).1
  · exact ((C8_update_bits (initDev regsW failFirst) 4 64 64).2.2.1
      rfl).1
  · exact ((C8_update_bits (initDev regsW failFirst) 4 64 64).2.2.1
      rfl).2.1
  · exact ((C8_update_bits (initDev regsW failSecond) 516 64 64).2.2.2.1
      (by decide) (by decide) rfl rfl).1
  · exact ((C8_update_bits (initDev regsW failSecond) 516 64 64).2.2.2.1
      (by decide) (by decide) rfl rfl).2.1
  · exact ((C8_update_bits (initDev regsW failSecond) 4 64
      0).2.2.2.2.1 (by decide) rfl rfl 0 (by decide) (by decide)).1
  · exact ((C8_update_bits (initDev regsW failSecond) 4 64
      0).2.2.2.2.1 (by decide) rfl rfl 0 (by decide) (by decide)).2.1
  · exact ((C8_update_bits (initDev regsW failSecond) 4 64
      0).2.2.2.2.1 (by decide) rfl rfl 0 (by decide) (by decide)).2.2
  · exact ((C8_update_bits (initDev regsW failAt2) 516 64
      64).2.2.2.2.2.1 (by decide) (by decide) rfl rfl rfl _ rfl 64
      (by decide) (by decide)).1
  · exact ((C8_update_bits (initDev regsW failAt2) 516 64
      64).2.2.2.2.2.1 (by decide) (by decide) rfl rfl rfl _ rfl 64
      (by decide) (by decide)).2.1
  · exact ((C8_update_bits (initDev regsW failAt2) 516 64
      64).2.2.2.2.2.1 (by decide) (by decide) rfl rfl rfl _ rfl 64
      (by decide) (by decide)).2.2
  · exact ((C8_update_bits (initDev regsW failAt3) 516 64
      64).2.2.2.2.2.2 (by decide) (by decide) rfl rfl rfl rfl _ rfl 64
      (by decide) (by decide)).1
  · exact ((C8_update_bits (initDev regsW failAt3) 516 64
      64).2.2.2.2.2.2 (by decide) (by decide) rfl rfl rfl rfl _ rfl 64
      (by decide) (by decide)).2.1
  · exact ((C8_update_bits (initDev regsW failAt3) 516 64
      64).2.2.2.2.2.2 (by decide) (by decide) rfl rfl rfl rfl _ rfl 64
      (by decide) (by decide)).2.2.1

/-- A valid Device Configuration (strictly positive pixel clock and lane
counts, all fields in u32 range) on which the u32 wrap in
tc358768_pclk_to_pll loses all information: pixelclock 2^31, 24 DPI lanes,
4 DSI lanes gives byteclk * 8 = 3 * 2^32, which truncates to pll = 0. -/
def cexC5 : Ddata :=
  { dpi_ndl := 24
    dsi_ndl := 4
    fbd := 0
    prd := 0
    frs := 0
    bitclk := 0
    pixelclock := 2147483648
    refclk := 536870912
    hsw := 0
    hbp := 0
    vsw := 0
    vbp := 0 }

/-- C5 counterexample: on the valid configuration cexC5 the composition
pll_to_pclk(pclk_to_pll(cfg)) returns 0, a full 2^31 Hz below the original
pixel clock, violating any bound derived from the two truncating divisions
(the derived bound allows an error below (8 * dsi + dpi) / dpi pixels of the
clock, shown here in the cross-multiplied form). -/
theorem C5_round_trip_cex :
    0 < cexC5.pixelclock ∧ 0 < cexC5.dpi_ndl ∧ 0 < cexC5.dsi_ndl ∧
    pllToPclk cexC5 (pclkToPll cexC5) = 0 ∧
    ¬ (cexC5.dpi_ndl * cexC5.pixelclock ≤
        cexC5.dpi_ndl * pllToPclk cexC5 (pclkToPll cexC5) +
          8 * cexC5.dsi_ndl + cexC5.dpi_ndl) := by
  decide

/-- C5 (amended): when no intermediate value wraps (byteclk below 2^29 so
that byteclk * 8 is a u32, divisor 8 * dsi a u32, pixelclock a u32), the
round trip reproduces the pixel clock up to the error of the two truncating
divisions: result ≤ pixelclock and
dpi * pixelclock + 2 ≤ dpi * result + 8 * dsi + dpi. -/
theorem C5_round_trip (d : Ddata) (h1 : 0 < d.pixelclock)
    (h2 : 0 < d.dpi_ndl) (h3 : 0 < d.dsi_ndl)
    (h4 : d.pixelclock < U32MOD) (h5 : 8 * d.dsi_ndl < U32MOD)
    (h6 : d.pixelclock * d.dpi_ndl / (8 * d.dsi_ndl) < 2 ^ 29) :
    pllToPclk d (pclkToPll d) ≤ d.pixelclock ∧
    d.dpi_ndl * d.pixelclock + 2 ≤
      d.dpi_ndl * pllToPclk d (pclkToPll d) + 8 * d.dsi_ndl + d.dpi_ndl := by
  have h6b : d.pixelclock * d.dpi_ndl / (8 * d.dsi_ndl) < 536870912 := by
    simpa using h6
  have hmod1 : 8 * d.dsi_ndl % U32MOD = 8 * d.dsi_ndl := Nat.mod_eq_of_lt h5
  have hbU : d.pixelclock * d.dpi_ndl / (8 * d.dsi_ndl) < U32MOD := by
    show _ < 4294967296
    omega
  have hb8 : d.pixelclock * d.dpi_ndl / (8 * d.dsi_ndl) * 8 < U32MOD := by
    show _ < 4294967296
    omega
  have e_pll : pclkToPll d =
      d.pixelclock * d.dpi_ndl / (8 * d.dsi_ndl) * 8 := by
    simp only [pclkToPll]
    rw [hmod1, Nat.mod_eq_of_lt hbU,
      show ∀ x : Nat, x * 4 * 2 = x * 8 from fun x => by ring,
      Nat.mod_eq_of_lt hb8]
  have hle8 : d.pixelclock * d.dpi_ndl / (8 * d.dsi_ndl) * 8 * d.dsi_ndl ≤
      d.pixelclock * d.dpi_ndl := by
    have := Nat.div_mul_le_self (d.pixelclock * d.dpi_ndl) (8 * d.dsi_ndl)
    calc d.pixelclock * d.dpi_ndl / (8 * d.dsi_ndl) * 8 * d.dsi_ndl
        = d.pixelclock * d.dpi_ndl / (8 * d.dsi_ndl) * (8 * d.dsi_ndl) := by
          ring
      _ ≤ d.pixelclock * d.dpi_ndl := this
  have hpre : d.pixelclock * d.dpi_ndl / (8 * d.dsi_ndl) * 8 * d.dsi_ndl /
      d.dpi_ndl ≤ d.pixelclock := by
    calc d.pixelclock * d.dpi_ndl / (8 * d.dsi_ndl) * 8 * d.dsi_ndl /
          d.dpi_ndl
        ≤ d.pixelclock * d.dpi_ndl / d.dpi_ndl := Nat.div_le_div_right hle8
      _ = d.pixelclock := Nat.mul_div_cancel _ h2
  have e_rt : pllToPclk d (d.pixelclock * d.dpi_ndl / (8 * d.dsi_ndl) * 8) =
      d.pixelclock * d.dpi_ndl / (8 * d.dsi_ndl) * 8 * d.dsi_ndl /
        d.dpi_ndl := by
    simp only [pllToPclk]
    rw [Nat.mod_eq_of_lt hb8,
      show ∀ x : Nat, x * 8 / 2 / 4 = x from fun x => by omega,
      Nat.mod_eq_of_lt (Nat.lt_of_le_of_lt hpre h4)]
  rw [e_pll, e_rt]
  refine ⟨hpre, ?_⟩
  have e1 := Nat.div_add_mod (d.pixelclock * d.dpi_ndl) (8 * d.dsi_ndl)
  have e2 := Nat.div_add_mod
    (d.pixelclock * d.dpi_ndl / (8 * d.dsi_ndl) * 8 * d.dsi_ndl) d.dpi_ndl
  have hr1 : d.pixelclock * d.dpi_ndl % (8 * d.dsi_ndl) < 8 * d.dsi_ndl :=
    Nat.mod_lt _ (by omega)
  have hr2 : d.pixelclock * d.dpi_ndl / (8 * d.dsi_ndl) * 8 * d.dsi_ndl %
      d.dpi_ndl < d.dpi_ndl := Nat.mod_lt _ h2
  have hcc : 8 * d.dsi_ndl * (d.pixelclock * d.dpi_ndl / (8 * d.dsi_ndl)) =
      d.pixelclock * d.dpi_ndl / (8 * d.dsi_ndl) * 8 * d.dsi_ndl := by
    ring
  rw [hcc] at e1
  rw [Nat.mul_comm d.dpi_ndl d.pixelclock]
  nlinarith [e1, e2, hr1, hr2]

/-- C5 witness for the amended round trip: the FORTEC configuration, where
the round trip is in fact exact (154900000 back from 154900000). -/
theorem C5_round_trip_witness :
    (0 < fortec.pixelclock ∧ 0 < fortec.dpi_ndl ∧ 0 < fortec.dsi_ndl ∧
      fortec.pixelclock < U32MOD ∧ 8 * fortec.dsi_ndl < U32MOD ∧
      fortec.pixelclock * fortec.dpi_ndl / (8 * fortec.dsi_ndl) < 2 ^ 29) ∧
    pllToPclk fortec (pclkToPll fortec) ≤ fortec.pixelclock ∧
    fortec.dpi_ndl * fortec.pixelclock + 2 ≤
      fortec.dpi_ndl * pllToPclk fortec (pclkToPll fortec) +
        8 * fortec.dsi_ndl + fortec.dpi_ndl :=
  ⟨⟨by decide, by decide, by decide, by decide, by decide, by decide⟩,
    C5_round_trip fortec (by decide) (by decide) (by decide) (by decide)
      (by decide) (by decide)⟩

/-- A candidate frequency is in the selected bracket. -/
def inBracket (minPll maxPll pll : Nat) : Prop := minPll ≤ pll ∧ pll < maxPll

/-- The absolute difference computed by the divider search. -/
def diffOf (target pll : Nat) : Nat := max pll target - min pll target

/-- One search step with the break flag still clear skips an out-of-bracket
candidate. -/
theorem searchStep_skip (r t mn mx f : Nat) (s : Best) (c : Nat × Nat)
    (h : s.done = false)
    (hout : ¬ inBracket mn mx (pllCand r f c.1 c.2)) :
    searchStep r t mn mx f s c = s := by
  unfold searchStep
  rw [if_neg (by simp [h])]
  unfold inBracket at hout
  rw [if_pos (by omega)]

/-- One search step with the break flag clear records a strictly improving
in-bracket candidate. -/
theorem searchStep_update (r t mn mx f : Nat) (s : Best) (c : Nat × Nat)
    (h : s.done = false)
    (hin : inBracket mn mx (pllCand r f c.1 c.2))
    (hlt : diffOf t (pllCand r f c.1 c.2) < s.diff) :
    searchStep r t mn mx f s c =
      ⟨diffOf t (pllCand r f c.1 c.2), pllCand r f c.1 c.2, c.1, c.2,
        decide (diffOf t (pllCand r f c.1 c.2) = 0)⟩ := by
  unfold searchStep
  rw [if_neg (by simp [h])]
  unfold inBracket at hin
  rw [if_neg (by omega)]
  unfold diffOf at hlt ⊢
  rw [if_pos hlt]

/-- One search step with the break flag clear keeps the current best on a
non-improving in-bracket candidate. -/
theorem searchStep_keep (r t mn mx f : Nat) (s : Best) (c : Nat × Nat)
    (h : s.done = false)
    (hin : inBracket mn mx (pllCand r f c.1 c.2))
    (hge : ¬ diffOf t (pllCand r f c.1 c.2) < s.diff) :
    searchStep r t mn mx f s c = s := by
  unfold searchStep
  rw [if_neg (by simp [h])]
  unfold inBracket at hin
  rw [if_neg (by omega)]
  unfold diffOf at hge
  rw [if_neg hge]

/-- In-bracket differences are below the UINT_MAX sentinel whenever the
target is a u32 value and the bracket top is at most UINT_MAX. -/
theorem diffOf_lt_umax {t mn mx pll : Nat} (hT : t < UINT_MAX)
    (hM : mx ≤ UINT_MAX) (h : inBracket mn mx pll) :
    diffOf t pll < UINT_MAX := by
  unfold inBracket at h
  unfold diffOf
  omega

/-- The invariant of the divider search: either no candidate so far was in
the bracket and the state is the initial sentinel state, or the state
records the first candidate (in loop order) achieving the minimum in-bracket
difference among the candidates processed so far. -/
def SearchInv (r t mn mx f : Nat) (processed : List (Nat × Nat))
    (s : Best) : Prop :=
  (s = initBest ∧
    ∀ c ∈ processed, ¬ inBracket mn mx (pllCand r f c.1 c.2)) ∨
  (∃ l1 c l2, processed = l1 ++ c :: l2 ∧
    inBracket mn mx (pllCand r f c.1 c.2) ∧
    s = ⟨diffOf t (pllCand r f c.1 c.2), pllCand r f c.1 c.2, c.1, c.2,
      decide (diffOf t (pllCand r f c.1 c.2) = 0)⟩ ∧
    (∀ c2 ∈ l1, inBracket mn mx (pllCand r f c2.1 c2.2) →
      diffOf t (pllCand r f c.1 c.2) < diffOf t (pllCand r f c2.1 c2.2)) ∧
    (∀ c2 ∈ processed, inBracket mn mx (pllCand r f c2.1 c2.2) →
      diffOf t (pllCand r f c.1 c.2) ≤ diffOf t (pllCand r f c2.1 c2.2)))

/-- The invariant is preserved by one search step. -/
theorem searchInv_step (r t mn mx f : Nat) (hT : t < UINT_MAX)
    (hM : mx ≤ UINT_MAX) (processed : List (Nat × Nat)) (s : Best)
    (c : Nat × Nat) (h : SearchInv r t mn mx f processed s) :
    SearchInv r t mn mx f (processed ++ [c])
      (searchStep r t mn mx f s c) := by
  rcases h with ⟨hs, hnone⟩ | ⟨l1, cb, l2, hsplit, hin, hs, hstrict, hmin⟩
  · subst hs
    by_cases hinc : inBracket mn mx (pllCand r f c.1 c.2)
    · rw [searchStep_update r t mn mx f _ c rfl hinc
        (by simpa [initBest] using diffOf_lt_umax hT hM hinc)]
      right
      refine ⟨processed, c, [], by simp, hinc, rfl, ?_, ?_⟩
      · intro c2 hc2 hb2
        exact absurd hb2 (hnone c2 hc2)
      · intro c2 hc2 hb2
        rcases List.mem_append.1 hc2 with hc2 | hc2
        · exact absurd hb2 (hnone c2 hc2)
        · rcases List.mem_singleton.1 hc2 with rfl
          exact Nat.le_refl _
    · rw [searchStep_skip r t mn mx f _ c rfl hinc]
      left
      refine ⟨rfl, ?_⟩
      intro c2 hc2
      rcases List.mem_append.1 hc2 with hc2 | hc2
      · exact hnone c2 hc2
      · rcases List.mem_singleton.1 hc2 with rfl
        exact hinc
  · by_cases hdone : s.done = true
    · rw [searchStep_of_done r t mn mx f s c hdone]
      right
      refine ⟨l1, cb, l2 ++ [c], by simp [hsplit], hin, hs, hstrict, ?_⟩
      have hzero : diffOf t (pllCand r f cb.1 cb.2) = 0 := by
        have := congrArg Best.done hs
        rw [hdone] at this
        simpa using this.symm
      intro c2 hc2 hb2
      rw [hzero]
      exact Nat.zero_le _
    · have hdf : s.done = false := by
        revert hdone
        cases s.done <;> simp
      by_cases hinc : inBracket mn mx (pllCand r f c.1 c.2)
      · by_cases hlt : diffOf t (pllCand r f c.1 c.2) < s.diff
        · rw [searchStep_update r t mn mx f s c hdf hinc hlt]
          right
          have hsd : s.diff = diffOf t (pllCand r f cb.1 cb.2) := by
            rw [hs]
          refine ⟨processed, c, [], by simp, hinc, rfl, ?_, ?_⟩
          · intro c2 hc2 hb2
            exact Nat.lt_of_lt_of_le (hsd ▸ hlt) (hmin c2 hc2 hb2)
          · intro c2 hc2 hb2
            rcases List.mem_append.1 hc2 with hc2 | hc2
            · exact Nat.le_of_lt
                (Nat.lt_of_lt_of_le (hsd ▸ hlt) (hmin c2 hc2 hb2))
            · rcases List.mem_singleton.1 hc2 with rfl
              exact Nat.le_refl _
        · rw [searchStep_keep r t mn mx f s c hdf hinc hlt]
          right
          have hsd : s.diff = diffOf t (pllCand r f cb.1 cb.2) := by
            rw [hs]
          refine ⟨l1, cb, l2 ++ [c], by simp [hsplit], hin, hs, hstrict, ?_⟩
          intro c2 hc2 hb2
          rcases List.mem_append.1 hc2 with hc2 | hc2
          · exact hmin c2 (hsplit ▸ hc2) hb2
          · rcases List.mem_singleton.1 hc2 with rfl
            rw [← hsd]
            omega
      · rw [searchStep_skip r t mn mx f s c hdf hinc]
        right
        refine ⟨l1, cb, l2 ++ [c], by simp [hsplit], hin, hs, hstrict, ?_⟩
        intro c2 hc2 hb2
        rcases List.mem_append.1 hc2 with hc2 | hc2
        · exact hmin c2 (hsplit ▸ hc2) hb2
        · rcases List.mem_singleton.1 hc2 with rfl
          exact absurd hb2 hinc

/-- The invariant is preserved by folding the search step over a list. -/
theorem searchInv_foldl (r t mn mx f : Nat) (hT : t < UINT_MAX)
    (hM : mx ≤ UINT_MAX) (l : List (Nat × Nat)) :
    ∀ (processed : List (Nat × Nat)) (s : Best),
      SearchInv r t mn mx f processed s →
      SearchInv r t mn mx f (processed ++ l)
        (l.foldl (searchStep r t mn mx f) s) := by
  induction l with
  | nil =>
    intro processed s h
    simpa using h
  | cons c l ih =>
    intro processed s h
    rw [List.foldl_cons, show processed ++ c :: l = (processed ++ [c]) ++ l
      from by simp]
    exact ih (processed ++ [c]) _ (searchInv_step r t mn mx f hT hM _ s c h)

/-- The divider search satisfies the invariant over the whole loop order. -/
theorem searchBest_inv (r t mn mx f : Nat) (hT : t < UINT_MAX)
    (hM : mx ≤ UINT_MAX) :
    SearchInv r t mn mx f candPairs (searchBest r t mn mx f) := by
  have h0 : SearchInv r t mn mx f [] initBest := by
    left
    exact ⟨rfl, by simp⟩
  have := searchInv_foldl r t mn mx f hT hM candPairs [] initBest h0
  simpa [searchBest] using this

/-- C4: the divider search scans prd in [0,16) (outer, ascending) and fbd
in [0,512) (inner, ascending) — the order of candPairs — and returns the
first candidate achieving the minimum in-bracket absolute difference from
the target: every in-bracket candidate strictly earlier in loop order has a
strictly larger difference (hence an exact match is final the moment it is
reached, as the break flag models), and every in-bracket candidate anywhere
has at least the returned difference; the sentinel UINT_MAX is returned
exactly when no candidate is in the bracket, in which case tc358768_calc_pll
fails with -EINVAL. -/
theorem C4_divider_search (r t mn mx f : Nat) (hT : t < UINT_MAX)
    (hM : mx ≤ UINT_MAX) :
    ((searchBest r t mn mx f).diff = UINT_MAX ↔
      ∀ c ∈ candPairs, ¬ inBracket mn mx (pllCand r f c.1 c.2)) ∧
    ((searchBest r t mn mx f).diff ≠ UINT_MAX →
      ∃ l1 l2, candPairs = l1 ++
          ((searchBest r t mn mx f).prd, (searchBest r t mn mx f).fbd) ::
            l2 ∧
        (searchBest r t mn mx f).pll =
          pllCand r f (searchBest r t mn mx f).prd
            (searchBest r t mn mx f).fbd ∧
        inBracket mn mx (searchBest r t mn mx f).pll ∧
        (searchBest r t mn mx f).diff =
          diffOf t (searchBest r t mn mx f).pll ∧
        (∀ c ∈ l1, inBracket mn mx (pllCand r f c.1 c.2) →
          diffOf t (searchBest r t mn mx f).pll <
            diffOf t (pllCand r f c.1 c.2)) ∧
        (∀ c ∈ candPairs, inBracket mn mx (pllCand r f c.1 c.2) →
          diffOf t (searchBest r t mn mx f).pll ≤
            diffOf t (pllCand r f c.1 c.2))) ∧
    (∀ d : Ddata, ∀ i, findFrs (pclkToPll d) = some i →
      (searchBest d.refclk (pclkToPll d) (frsLimits.getD (i + 1) 0)
        (frsLimits.getD i 0) i).diff = UINT_MAX →
      calcPll d = (d, -22)) := by
  have hinv := searchBest_inv r t mn mx f hT hM
  refine ⟨⟨?_, ?_⟩, ?_, ?_⟩
  · intro hd
    rcases hinv with ⟨hs, hnone⟩ | ⟨l1, cb, l2, hsplit, hin, hs, h3, h4⟩
    · exact hnone
    · exfalso
      have hdd : (searchBest r t mn mx f).diff =
          diffOf t (pllCand r f cb.1 cb.2) := by rw [hs]
      have hlt := diffOf_lt_umax hT hM hin
      omega
  · intro hnone
    rcases hinv with ⟨hs, h2⟩ | ⟨l1, cb, l2, hsplit, hin, hs, h3, h4⟩
    · rw [hs]
      rfl
    · exact absurd hin (hnone cb (by
        rw [hsplit]
        exact List.mem_append_right _ (List.mem_cons_self ..)))
  · intro hd
    rcases hinv with ⟨hs, hnone⟩ | ⟨l1, cb, l2, hsplit, hin, hs, hstrict, hmin⟩
    · exact absurd (by rw [hs]; rfl) hd
    · have hprd : (searchBest r t mn mx f).prd = cb.1 := by rw [hs]
      have hfbd : (searchBest r t mn mx f).fbd = cb.2 := by rw [hs]
      have hpll : (searchBest r t mn mx f).pll = pllCand r f cb.1 cb.2 := by
        rw [hs]
      have hdiff : (searchBest r t mn mx f).diff =
          diffOf t (pllCand r f cb.1 cb.2) := by rw [hs]
      refine ⟨l1, l2, ?_, ?_, ?_, ?_, ?_, ?_⟩
      · rw [hprd, hfbd]
        simpa using hsplit
      · rw [hpll, hprd, hfbd]
      · rw [hpll]
        exact hin
      · rw [hdiff, hpll]
      · intro cc hcc hbcc
        rw [hpll]
        exact hstrict cc hcc hbcc
      · intro cc hcc hbcc
        rw [hpll]
        exact hmin cc hcc hbcc
  · intro d i hfrs hdiff
    unfold calcPll
    simp only [hfrs]
    rw [if_pos hdiff]

/-- C4 witness: at the FORTEC solver inputs the search finds an in-bracket
candidate (the sentinel is not returned), and the no-candidate criterion of
the theorem holds there in its iff form. -/
theorem C4_divider_search_witness :
    (searchBest 38725000 929400000 500000000 1000000000 0).diff ≠
      UINT_MAX ∧
    ((searchBest 38725000 929400000 500000000 1000000000 0).diff =
        UINT_MAX ↔
      ∀ c ∈ candPairs, ¬ inBracket 500000000 1000000000
        (pllCand 38725000 0 c.1 c.2)) := by
  constructor
  · rw [searchBest_fortec]
    decide
  · exact (C4_divider_search 38725000 929400000 500000000 1000000000 0
      (by decide) (by decide)).1

/-- Facts recoverable from a successful frs selection. -/
theorem findFrs_some_facts {t i : Nat} (h : findFrs t = some i) :
    i < 4 ∧ frsLimits.getD (i + 1) 0 ≤ t ∧ t < frsLimits.getD i 0 ∧
      t < 1000000000 := by
  rw [findFrs_eq] at h
  split_ifs at h with a1 a2 a3 a4 a5 <;>
    first
    | (cases h; refine ⟨by omega, ?_, ?_, by omega⟩ <;>
        simp [frsLimits] <;> omega)
    | simp_all

/-- Membership in the candidate list gives the loop bounds. -/
theorem mem_candPairs {c : Nat × Nat} (h : c ∈ candPairs) :
    c.1 < 16 ∧ c.2 < 512 := by
  unfold candPairs at h
  rcases List.mem_flatMap.1 h with ⟨prd, hprd, hc⟩
  rcases List.mem_map.1 hc with ⟨fbd, hfbd, rfl⟩
  exact ⟨List.mem_range.1 hprd, List.mem_range.1 hfbd⟩

/-- For the frs values the selector can produce, the u32 divisor does not
wrap and the candidate formula is the plain quotient reduced mod 2^32. -/
theorem pllCand_eq (r i prd fbd : Nat) (hprd : prd < 16) (hi : i < 4) :
    pllCand r i prd fbd = r * (fbd + 1) / ((prd + 1) * 2 ^ i) % U32MOD := by
  unfold pllCand
  rw [Nat.shiftLeft_eq, one_mul]
  have hp : 2 ^ i ≤ 2 ^ 3 := Nat.pow_le_pow_right (by decide) (by omega)
  have hsmall : (prd + 1) * 2 ^ i < U32MOD := by
    have := Nat.mul_le_mul (show prd + 1 ≤ 16 by omega) hp
    show _ < 4294967296
    omega
  rw [Nat.mod_eq_of_lt hsmall]

/-- Inversion of a successful tc358768_calc_pll run. -/
theorem calcPll_success (d d2 : Ddata) (h : calcPll d = (d2, 0)) :
    ∃ i, findFrs (pclkToPll d) = some i ∧
      (searchBest d.refclk (pclkToPll d) (frsLimits.getD (i + 1) 0)
        (frsLimits.getD i 0) i).diff ≠ UINT_MAX ∧
      d2 = { d with
             fbd := (searchBest d.refclk (pclkToPll d)
               (frsLimits.getD (i + 1) 0) (frsLimits.getD i 0) i).fbd
             prd := (searchBest d.refclk (pclkToPll d)
               (frsLimits.getD (i + 1) 0) (frsLimits.getD i 0) i).prd
             frs := i
             bitclk := (searchBest d.refclk (pclkToPll d)
               (frsLimits.getD (i + 1) 0) (frsLimits.getD i 0) i).pll /
                 2 } := by
  unfold calcPll at h
  rcases hf : findFrs (pclkToPll d) with _ | i
  · simp only [hf] at h
    have h2 := congrArg Prod.snd h
    simp at h2
  · simp only [hf] at h
    split at h
    · have h2 := congrArg Prod.snd h
      simp at h2
    · refine ⟨i, rfl, by assumption, ?_⟩
      have := congrArg Prod.fst h
      simp only at this
      exact this.symm

/-- C1 counterexample: on the valid configuration cexC1 the solver succeeds
with fbd = 5, prd = 0, frs = 0, but the u64 quotient
refclk * (fbd + 1) / ((prd + 1) * 2^frs) = 5094967296 does not fit in u32;
the solved frequency is its u32 truncation 800000000 and the returned
bitclk 400000000 is half of the truncation, not half of the quotient, so
the claimed identity fails. -/
theorem C1_pll_solution_cex :
    calcPll cexC1 = (cexC1Solved, 0) ∧
    cexC1Solved.fbd = 5 ∧ cexC1Solved.prd = 0 ∧ cexC1Solved.frs = 0 ∧
    cexC1.refclk * (cexC1Solved.fbd + 1) /
      ((cexC1Solved.prd + 1) * 2 ^ cexC1Solved.frs) = 5094967296 ∧
    cexC1Solved.bitclk = 400000000 ∧
    ¬ cexC1Solved.bitclk = cexC1.refclk * (cexC1Solved.fbd + 1) /
        ((cexC1Solved.prd + 1) * 2 ^ cexC1Solved.frs) / 2 := by
  refine ⟨calcPll_cexC1, ?_, ?_, ?_, ?_, ?_, ?_⟩ <;> decide

/-- C1 (amended): whenever tc358768_calc_pll succeeds on a Device
Configuration with positive pixel clock, reference clock and lane counts,
the stored solution satisfies fbd in [0, 512), prd in [0, 16), the solved
PLL frequency equals (refclk * (fbd + 1) / ((prd + 1) * 2^frs)) mod 2^32
(truncating division, u32 cast as in the code), that frequency lies in the
half-open bracket [range_min, range_max) selected by frs, and bitclk is
that frequency divided by 2 (truncating). -/
theorem C1_pll_solution (d d2 : Ddata) (hpx : 0 < d.pixelclock)
    (hrc : 0 < d.refclk) (hdpi : 0 < d.dpi_ndl) (hdsi : 0 < d.dsi_ndl)
    (h : calcPll d = (d2, 0)) :
    d2.fbd < 512 ∧ d2.prd < 16 ∧
    frsLimits.getD (d2.frs + 1) 0 ≤
      d.refclk * (d2.fbd + 1) / ((d2.prd + 1) * 2 ^ d2.frs) % U32MOD ∧
    d.refclk * (d2.fbd + 1) / ((d2.prd + 1) * 2 ^ d2.frs) % U32MOD <
      frsLimits.getD d2.frs 0 ∧
    d2.bitclk =
      d.refclk * (d2.fbd + 1) / ((d2.prd + 1) * 2 ^ d2.frs) % U32MOD / 2 := by
  obtain ⟨i, hf, hne, hd2⟩ := calcPll_success d d2 h
  obtain ⟨hi4, hlo, hhi, ht9⟩ := findFrs_some_facts hf
  have hT : pclkToPll d < UINT_MAX := by
    show _ < 4294967295
    omega
  have hM : frsLimits.getD i 0 ≤ UINT_MAX := by
    interval_cases i <;> decide
  have hinv := searchBest_inv d.refclk (pclkToPll d)
    (frsLimits.getD (i + 1) 0) (frsLimits.getD i 0) i hT hM
  rcases hinv with ⟨hs, hnone⟩ | ⟨l1, cb, l2, hsplit, hin, hs, h3, h4⟩
  · exact absurd (by rw [hs]; rfl) hne
  · have hmem : cb ∈ candPairs := by
      rw [hsplit]
      exact List.mem_append_right _ (List.mem_cons_self ..)
    obtain ⟨hprd, hfbd⟩ := mem_candPairs hmem
    have hfields : d2.fbd = cb.2 ∧ d2.prd = cb.1 ∧ d2.frs = i ∧
        d2.bitclk = pllCand d.refclk i cb.1 cb.2 / 2 := by
      rw [hd2, hs]
      exact ⟨rfl, rfl, rfl, rfl⟩
    obtain ⟨e1, e2, e3, e4⟩ := hfields
    rw [e1, e2, e3, e4]
    rw [← pllCand_eq d.refclk i cb.1 cb.2 hprd hi4]
    unfold inBracket at hin
    exact ⟨hfbd, hprd, hin.1, hin.2, rfl⟩

/-- C1 witness: the amended solution invariant evaluated on the FORTEC
configuration, whose solution is fbd 23, prd 0, frs 0,
bitclk 464700000 = 929400000 / 2 with 929400000 inside [500e6, 1e9). -/
theorem C1_pll_solution_witness :
    fortecSolved.fbd < 512 ∧ fortecSolved.prd < 16 ∧
    frsLimits.getD (fortecSolved.frs + 1) 0 ≤
      fortec.refclk * (fortecSolved.fbd + 1) /
        ((fortecSolved.prd + 1) * 2 ^ fortecSolved.frs) % U32MOD ∧
    fortec.refclk * (fortecSolved.fbd + 1) /
      ((fortecSolved.prd + 1) * 2 ^ fortecSolved.frs) % U32MOD <
      frsLimits.getD fortecSolved.frs 0 ∧
    fortecSolved.bitclk =
      fortec.refclk * (fortecSolved.fbd + 1) /
        ((fortecSolved.prd + 1) * 2 ^ fortecSolved.frs) % U32MOD / 2 :=
  C1_pll_solution fortec fortecSolved (by decide) (by decide) (by decide)
    (by decide) calcPll_fortec

/- A phase decomposition of tc358768_power_on, definitionally equal to
powerOn, used to reason about its bus trace in manageable pieces. -/

def phase1 (d : Ddata) (dev : Dev) : Dev :=
  let dev := swReset dev
  let dev := setupPll d dev
  let dev := (tcWrite dev VSDLY 1).1
  let dev := (tcWrite dev DATAFMT
    ((0x3 <<< 4) ||| (1 <<< 2) ||| (1 <<< 1) ||| (1 <<< 0))).1
  (tcWrite dev DSITX_DT 0x003e).1

def phase2 (dev : Dev) : Dev :=
  let dev := (tcWrite dev CLW_CNTRL 0x0000).1
  let dev := (tcWrite dev D0W_CNTRL 0x0000).1
  let dev := (tcWrite dev D1W_CNTRL 0x0000).1
  let dev := (tcWrite dev D2W_CNTRL 0x0000).1
  let dev := (tcWrite dev D3W_CNTRL 0x0000).1
  let dev := (tcWrite dev LINEINITCNT 0x00002c88).1
  let dev := (tcWrite dev LPTXTIMECNT 0x00000005).1
  let dev := (tcWrite dev TCLK_HEADERCNT 0x00001f06).1
  let dev := (tcWrite dev TCLK_TRAILCNT 0x00000003).1
  let dev := (tcWrite dev THS_HEADERCNT 0x00000606).1
  let dev := (tcWrite dev TWAKEUP 0x00004a88).1
  let dev := (tcWrite dev TCLK_POSTCNT 0x0000000b).1
  let dev := (tcWrite dev THS_TRAILCNT 0x00000004).1
  let dev := (tcWrite dev HSTXVREGEN 0x0000001f).1
  (tcWrite dev TXOPTIONCNTRL 0x1).1

def phase3 (dev : Dev) : Dev :=
  let dev := (xferShort dev MIPI_DSI_DCS_SHORT_WRITE
    MIPI_DCS_EXIT_SLEEP_MODE 0).1
  let dev := (tcWrite dev BTACNTRL1 ((0x5 <<< 16) ||| 0x5)).1
  (tcWrite dev STARTCNTRL 0x1).1

def phase4 (d : Ddata) (dev : Dev) : Dev :=
  let dev := (tcWrite dev DSI_EVENT 1).1
  let dev := (tcWrite dev DSI_VSW (d.vsw + d.vbp)).1
  let dev := (tcWrite dev DSI_VBPR 0).1
  let dev := (tcWrite dev DSI_VACT 1920).1
  let dev := (tcWrite dev DSI_HSW (hswVal d)).1
  let dev := (tcWrite dev DSI_HBPR 0).1
  let dev := (tcWrite dev DSI_HACT (1200 * 3)).1
  let dev := (tcWrite dev DSI_START 0x1).1
  let dev := (tcWrite dev DSI_CONFW ((5 <<< 29) ||| (0x3 <<< 24) ||| 0xa7)).1
  (tcWrite dev DSI_CONFW ((6 <<< 29) ||| (0x3 <<< 24) ||| 0x8000)).1

def phase5 (dev : Dev) : Dev :=
  let dev := (tcUpdateBits dev PP_MISC (0x3 <<< 14) 0).1
  (tcUpdateBits dev CONFCTL (1 <<< 6) (1 <<< 6)).1

theorem powerOn_phases (d : Ddata) (dev : Dev) :
    powerOn d dev = phase5 (phase4 d (phase3 (phase2 (phase1 d dev)))) :=
  rfl

/-- The PLLCTL1 value with the clock-output stage disabled (CKEN = 0), as a
16-bit wire value. -/
def pllctl1NoCken (frs : Nat) : Nat :=
  (frs <<< 10 ||| 512 ||| 2 ||| 1) % 4294967296 % 65536

/-- The PLLCTL1 value with the clock-output stage enabled (CKEN = 1), as a
16-bit wire value. -/
def pllctl1Cken (frs : Nat) : Nat :=
  (frs <<< 10 ||| 512 ||| 16 ||| 2 ||| 1) % 4294967296 % 65536

set_option maxHeartbeats 1000000 in
set_option maxRecDepth 8000 in
theorem phase1_trace (d : Ddata) (dev : Dev)
    (hnf : ∀ i, dev.fail i = false) :
    (phase1 d dev).trace = dev.trace ++
      [.wr 2 1, .wr 2 0,
       .wr 22 ((d.prd <<< 12 ||| d.fbd) % 4294967296 % 65536),
       .wr 24 (pllctl1NoCken d.frs),
       .sleepUs 1000 2000,
       .wr 24 (pllctl1Cken d.frs),
       .wr 6 1, .wr 8 55, .wr 80 62] := by
  simp [phase1, swReset, setupPll, sleepUsEv, tcWrite, regmapWrite, hnf,
    SYSCTL, PLLCTL0, PLLCTL1, VSDLY, DATAFMT, DSITX_DT, U16MOD, U32MOD,
    pllctl1NoCken, pllctl1Cken]

theorem sleepUsEv_fail (dev : Dev) (lo hi : Nat) :
    (sleepUsEv dev lo hi).fail = dev.fail := rfl

theorem sleepMsEv_fail (dev : Dev) (ms : Nat) :
    (sleepMsEv dev ms).fail = dev.fail := rfl

theorem xferShort_fail (dev : Dev) (a b c : Nat) :
    (xferShort dev a b c).1.fail = dev.fail := by
  simp only [xferShort, tcWrite_fail]

theorem phase1_fail (d : Ddata) (dev : Dev) :
    (phase1 d dev).fail = dev.fail := by
  simp only [phase1, swReset, setupPll, tcWrite_fail, sleepUsEv_fail]

set_option maxHeartbeats 1000000 in
set_option maxRecDepth 8000 in
theorem phase1_regs (d : Ddata) (dev : Dev)
    (hnf : ∀ i, dev.fail i = false) (r : Nat) (h2 : r ≠ 2) (h6 : r ≠ 6)
    (h8 : r ≠ 8) (h22 : r ≠ 22) (h24 : r ≠ 24) (h80 : r ≠ 80) :
    (phase1 d dev).regs r = dev.regs r := by
  simp [phase1, swReset, setupPll, sleepUsEv, tcWrite, regmapWrite, hnf,
    SYSCTL, PLLCTL0, PLLCTL1, VSDLY, DATAFMT, DSITX_DT, U16MOD, U32MOD,
    h2, h6, h8, h22, h24, h80]

set_option maxHeartbeats 2000000 in
set_option maxRecDepth 8000 in
theorem phase2_trace (dev : Dev) (hf1 : ∀ i, 1 ≤ i → dev.fail i = false)
    (he0 : dev.fail dev.txCount = false) :
    (phase2 dev).trace = dev.trace ++
      [.wr 320 0, .wr 322 0, .wr 324 0, .wr 326 0, .wr 328 0, .wr 330 0,
       .wr 332 0, .wr 334 0, .wr 336 0, .wr 338 0, .wr 528 11400,
       .wr 530 0, .wr 532 5, .wr 534 0, .wr 536 7942, .wr 538 0, .wr 540 3,
       .wr 542 0, .wr 544 1542, .wr 546 0, .wr 548 19080, .wr 550 0,
       .wr 552 11, .wr 554 0, .wr 556 4, .wr 558 0, .wr 564 31, .wr 566 0,
       .wr 568 1, .wr 570 0] := by
  have e0 : dev.fail dev.txCount = false := he0
  have e1 : dev.fail (dev.txCount + 1) = false := hf1 _ (by omega)
  have e2 : dev.fail (dev.txCount + 2) = false := hf1 _ (by omega)
  have e3 : dev.fail (dev.txCount + 3) = false := hf1 _ (by omega)
  have e4 : dev.fail (dev.txCount + 4) = false := hf1 _ (by omega)
  have e5 : dev.fail (dev.txCount + 5) = false := hf1 _ (by omega)
  have e6 : dev.fail (dev.txCount + 6) = false := hf1 _ (by omega)
  have e7 : dev.fail (dev.txCount + 7) = false := hf1 _ (by omega)
  have e8 : dev.fail (dev.txCount + 8) = false := hf1 _ (by omega)
  have e9 : dev.fail (dev.txCount + 9) = false := hf1 _ (by omega)
  have e10 : dev.fail (dev.txCount + 10) = false := hf1 _ (by omega)
  have e11 : dev.fail (dev.txCount + 11) = false := hf1 _ (by omega)
  have e12 : dev.fail (dev.txCount + 12) = false := hf1 _ (by omega)
  have e13 : dev.fail (dev.txCount + 13) = false := hf1 _ (by omega)
  have e14 : dev.fail (dev.txCount + 14) = false := hf1 _ (by omega)
  have e15 : dev.fail (dev.txCount + 15) = false := hf1 _ (by omega)
  have e16 : dev.fail (dev.txCount + 16) = false := hf1 _ (by omega)
  have e17 : dev.fail (dev.txCount + 17) = false := hf1 _ (by omega)
  have e18 : dev.fail (dev.txCount + 18) = false := hf1 _ (by omega)
  have e19 : dev.fail (dev.txCount + 19) = false := hf1 _ (by omega)
  have e20 : dev.fail (dev.txCount + 20) = false := hf1 _ (by omega)
  have e21 : dev.fail (dev.txCount + 21) = false := hf1 _ (by omega)
  have e22 : dev.fail (dev.txCount + 22) = false := hf1 _ (by omega)
  have e23 : dev.fail (dev.txCount + 23) = false := hf1 _ (by omega)
  have e24 : dev.fail (dev.txCount + 24) = false := hf1 _ (by omega)
  have e25 : dev.fail (dev.txCount + 25) = false := hf1 _ (by omega)
  have e26 : dev.fail (dev.txCount + 26) = false := hf1 _ (by omega)
  have e27 : dev.fail (dev.txCount + 27) = false := hf1 _ (by omega)
  have e28 : dev.fail (dev.txCount + 28) = false := hf1 _ (by omega)
  have e29 : dev.fail (dev.txCount + 29) = false := hf1 _ (by omega)
  simp [phase2, tcWrite, regmapWrite, e0, e1, e2, e3, e4, e5, e6, e7, e8, e9, e10, e11, e12, e13, e14, e15, e16, e17, e18, e19, e20, e21, e22, e23, e24, e25, e26, e27, e28, e29, CLW_CNTRL, D0W_CNTRL, D1W_CNTRL,
    D2W_CNTRL, D3W_CNTRL, LINEINITCNT, LPTXTIMECNT, TCLK_HEADERCNT,
    TCLK_TRAILCNT, THS_HEADERCNT, TWAKEUP, TCLK_POSTCNT, THS_TRAILCNT,
    HSTXVREGEN, TXOPTIONCNTRL, U16MOD, U32MOD]

set_option maxHeartbeats 2000000 in
set_option maxRecDepth 8000 in
theorem phase2_txCount (dev : Dev) (hf1 : ∀ i, 1 ≤ i → dev.fail i = false)
    (he0 : dev.fail dev.txCount = false) :
    (phase2 dev).txCount = dev.txCount + 30 := by
  have e0 : dev.fail dev.txCount = false := he0
  have e1 : dev.fail (dev.txCount + 1) = false := hf1 _ (by omega)
  have e2 : dev.fail (dev.txCount + 2) = false := hf1 _ (by omega)
  have e3 : dev.fail (dev.txCount + 3) = false := hf1 _ (by omega)
  have e4 : dev.fail (dev.txCount + 4) = false := hf1 _ (by omega)
  have e5 : dev.fail (dev.txCount + 5) = false := hf1 _ (by omega)
  have e6 : dev.fail (dev.txCount + 6) = false := hf1 _ (by omega)
  have e7 : dev.fail (dev.txCount + 7) = false := hf1 _ (by omega)
  have e8 : dev.fail (dev.txCount + 8) = false := hf1 _ (by omega)
  have e9 : dev.fail (dev.txCount + 9) = false := hf1 _ (by omega)
  have e10 : dev.fail (dev.txCount + 10) = false := hf1 _ (by omega)
  have e11 : dev.fail (dev.txCount + 11) = false := hf1 _ (by omega)
  have e12 : dev.fail (dev.txCount + 12) = false := hf1 _ (by omega)
  have e13 : dev.fail (dev.txCount + 13) = false := hf1 _ (by omega)
  have e14 : dev.fail (dev.txCount + 14) = false := hf1 _ (by omega)
  have e15 : dev.fail (dev.txCount + 15) = false := hf1 _ (by omega)
  have e16 : dev.fail (dev.txCount + 16) = false := hf1 _ (by omega)
  have e17 : dev.fail (dev.txCount + 17) = false := hf1 _ (by omega)
  have e18 : dev.fail (dev.txCount + 18) = false := hf1 _ (by omega)
  have e19 : dev.fail (dev.txCount + 19) = false := hf1 _ (by omega)
  have e20 : dev.fail (dev.txCount + 20) = false := hf1 _ (by omega)
  have e21 : dev.fail (dev.txCount + 21) = false := hf1 _ (by omega)
  have e22 : dev.fail (dev.txCount + 22) = false := hf1 _ (by omega)
  have e23 : dev.fail (dev.txCount + 23) = false := hf1 _ (by omega)
  have e24 : dev.fail (dev.txCount + 24) = false := hf1 _ (by omega)
  have e25 : dev.fail (dev.txCount + 25) = false := hf1 _ (by omega)
  have e26 : dev.fail (dev.txCount + 26) = false := hf1 _ (by omega)
  have e27 : dev.fail (dev.txCount + 27) = false := hf1 _ (by omega)
  have e28 : dev.fail (dev.txCount + 28) = false := hf1 _ (by omega)
  have e29 : dev.fail (dev.txCount + 29) = false := hf1 _ (by omega)
  simp [phase2, tcWrite, regmapWrite, e0, e1, e2, e3, e4, e5, e6, e7, e8, e9, e10, e11, e12, e13, e14, e15, e16, e17, e18, e19, e20, e21, e22, e23, e24, e25, e26, e27, e28, e29, CLW_CNTRL, D0W_CNTRL, D1W_CNTRL,
    D2W_CNTRL, D3W_CNTRL, LINEINITCNT, LPTXTIMECNT, TCLK_HEADERCNT,
    TCLK_TRAILCNT, THS_HEADERCNT, TWAKEUP, TCLK_POSTCNT, THS_TRAILCNT,
    HSTXVREGEN, TXOPTIONCNTRL, U16MOD, U32MOD]

theorem phase2_fail (dev : Dev) : (phase2 dev).fail = dev.fail := by
  simp only [phase2, tcWrite_fail]

set_option maxHeartbeats 2000000 in
set_option maxRecDepth 8000 in
theorem phase2_regs50 (dev : Dev) (hf1 : ∀ i, 1 ≤ i → dev.fail i = false)
    (he0 : dev.fail dev.txCount = false) :
    (phase2 dev).regs 50 = dev.regs 50 := by
  have e0 : dev.fail dev.txCount = false := he0
  have e1 : dev.fail (dev.txCount + 1) = false := hf1 _ (by omega)
  have e2 : dev.fail (dev.txCount + 2) = false := hf1 _ (by omega)
  have e3 : dev.fail (dev.txCount + 3) = false := hf1 _ (by omega)
  have e4 : dev.fail (dev.txCount + 4) = false := hf1 _ (by omega)
  have e5 : dev.fail (dev.txCount + 5) = false := hf1 _ (by omega)
  have e6 : dev.fail (dev.txCount + 6) = false := hf1 _ (by omega)
  have e7 : dev.fail (dev.txCount + 7) = false := hf1 _ (by omega)
  have e8 : dev.fail (dev.txCount + 8) = false := hf1 _ (by omega)
  have e9 : dev.fail (dev.txCount + 9) = false := hf1 _ (by omega)
  have e10 : dev.fail (dev.txCount + 10) = false := hf1 _ (by omega)
  have e11 : dev.fail (dev.txCount + 11) = false := hf1 _ (by omega)
  have e12 : dev.fail (dev.txCount + 12) = false := hf1 _ (by omega)
  have e13 : dev.fail (dev.txCount + 13) = false := hf1 _ (by omega)
  have e14 : dev.fail (dev.txCount + 14) = false := hf1 _ (by omega)
  have e15 : dev.fail (dev.txCount + 15) = false := hf1 _ (by omega)
  have e16 : dev.fail (dev.txCount + 16) = false := hf1 _ (by omega)
  have e17 : dev.fail (dev.txCount + 17) = false := hf1 _ (by omega)
  have e18 : dev.fail (dev.txCount + 18) = false := hf1 _ (by omega)
  have e19 : dev.fail (dev.txCount + 19) = false := hf1 _ (by omega)
  have e20 : dev.fail (dev.txCount + 20) = false := hf1 _ (by omega)
  have e21 : dev.fail (dev.txCount + 21) = false := hf1 _ (by omega)
  have e22 : dev.fail (dev.txCount + 22) = false := hf1 _ (by omega)
  have e23 : dev.fail (dev.txCount + 23) = false := hf1 _ (by omega)
  have e24 : dev.fail (dev.txCount + 24) = false := hf1 _ (by omega)
  have e25 : dev.fail (dev.txCount + 25) = false := hf1 _ (by omega)
  have e26 : dev.fail (dev.txCount + 26) = false := hf1 _ (by omega)
  have e27 : dev.fail (dev.txCount + 27) = false := hf1 _ (by omega)
  have e28 : dev.fail (dev.txCount + 28) = false := hf1 _ (by omega)
  have e29 : dev.fail (dev.txCount + 29) = false := hf1 _ (by omega)
  simp [phase2, tcWrite, regmapWrite, e0, e1, e2, e3, e4, e5, e6, e7, e8, e9, e10, e11, e12, e13, e14, e15, e16, e17, e18, e19, e20, e21, e22, e23, e24, e25, e26, e27, e28, e29, CLW_CNTRL, D0W_CNTRL, D1W_CNTRL,
    D2W_CNTRL, D3W_CNTRL, LINEINITCNT, LPTXTIMECNT, TCLK_HEADERCNT,
    TCLK_TRAILCNT, THS_HEADERCNT, TWAKEUP, TCLK_POSTCNT, THS_TRAILCNT,
    HSTXVREGEN, TXOPTIONCNTRL, U16MOD, U32MOD]

set_option maxHeartbeats 2000000 in
set_option maxRecDepth 8000 in
theorem phase2_regs4 (dev : Dev) (hf1 : ∀ i, 1 ≤ i → dev.fail i = false)
    (he0 : dev.fail dev.txCount = false) :
    (phase2 dev).regs 4 = dev.regs 4 := by
  have e0 : dev.fail dev.txCount = false := he0
  have e1 : dev.fail (dev.txCount + 1) = false := hf1 _ (by omega)
  have e2 : dev.fail (dev.txCount + 2) = false := hf1 _ (by omega)
  have e3 : dev.fail (dev.txCount + 3) = false := hf1 _ (by omega)
  have e4 : dev.fail (dev.txCount + 4) = false := hf1 _ (by omega)
  have e5 : dev.fail (dev.txCount + 5) = false := hf1 _ (by omega)
  have e6 : dev.fail (dev.txCount + 6) = false := hf1 _ (by omega)
  have e7 : dev.fail (dev.txCount + 7) = false := hf1 _ (by omega)
  have e8 : dev.fail (dev.txCount + 8) = false := hf1 _ (by omega)
  have e9 : dev.fail (dev.txCount + 9) = false := hf1 _ (by omega)
  have e10 : dev.fail (dev.txCount + 10) = false := hf1 _ (by omega)
  have e11 : dev.fail (dev.txCount + 11) = false := hf1 _ (by omega)
  have e12 : dev.fail (dev.txCount + 12) = false := hf1 _ (by omega)
  have e13 : dev.fail (dev.txCount + 13) = false := hf1 _ (by omega)
  have e14 : dev.fail (dev.txCount + 14) = false := hf1 _ (by omega)
  have e15 : dev.fail (dev.txCount + 15) = false := hf1 _ (by omega)
  have e16 : dev.fail (dev.txCount + 16) = false := hf1 _ (by omega)
  have e17 : dev.fail (dev.txCount + 17) = false := hf1 _ (by omega)
  have e18 : dev.fail (dev.txCount + 18) = false := hf1 _ (by omega)
  have e19 : dev.fail (dev.txCount + 19) = false := hf1 _ (by omega)
  have e20 : dev.fail (dev.txCount + 20) = false := hf1 _ (by omega)
  have e21 : dev.fail (dev.txCount + 21) = false := hf1 _ (by omega)
  have e22 : dev.fail (dev.txCount + 22) = false := hf1 _ (by omega)
  have e23 : dev.fail (dev.txCount + 23) = false := hf1 _ (by omega)
  have e24 : dev.fail (dev.txCount + 24) = false := hf1 _ (by omega)
  have e25 : dev.fail (dev.txCount + 25) = false := hf1 _ (by omega)
  have e26 : dev.fail (dev.txCount + 26) = false := hf1 _ (by omega)
  have e27 : dev.fail (dev.txCount + 27) = false := hf1 _ (by omega)
  have e28 : dev.fail (dev.txCount + 28) = false := hf1 _ (by omega)
  have e29 : dev.fail (dev.txCount + 29) = false := hf1 _ (by omega)
  simp [phase2, tcWrite, regmapWrite, e0, e1, e2, e3, e4, e5, e6, e7, e8, e9, e10, e11, e12, e13, e14, e15, e16, e17, e18, e19, e20, e21, e22, e23, e24, e25, e26, e27, e28, e29, CLW_CNTRL, D0W_CNTRL, D1W_CNTRL,
    D2W_CNTRL, D3W_CNTRL, LINEINITCNT, LPTXTIMECNT, TCLK_HEADERCNT,
    TCLK_TRAILCNT, THS_HEADERCNT, TWAKEUP, TCLK_POSTCNT, THS_TRAILCNT,
    HSTXVREGEN, TXOPTIONCNTRL, U16MOD, U32MOD]

set_option maxHeartbeats 1000000 in
set_option maxRecDepth 8000 in
theorem phase3_trace (dev : Dev) (hf1 : ∀ i, 1 ≤ i → dev.fail i = false)
    (he0 : dev.fail dev.txCount = false) :
    (phase3 dev).trace = dev.trace ++
      [.wr 1538 4101, .wr 1540 0, .wr 1552 17, .wr 1536 1, .wr 572 5,
       .wr 574 5, .wr 516 1, .wr 518 0] := by
  have e0 : dev.fail dev.txCount = false := he0
  have e1 : dev.fail (dev.txCount + 1) = false := hf1 _ (by omega)
  have e2 : dev.fail (dev.txCount + 2) = false := hf1 _ (by omega)
  have e3 : dev.fail (dev.txCount + 3) = false := hf1 _ (by omega)
  have e4 : dev.fail (dev.txCount + 4) = false := hf1 _ (by omega)
  have e5 : dev.fail (dev.txCount + 5) = false := hf1 _ (by omega)
  have e6 : dev.fail (dev.txCount + 6) = false := hf1 _ (by omega)
  have e7 : dev.fail (dev.txCount + 7) = false := hf1 _ (by omega)
  simp [phase3, xferShort, tcWrite, regmapWrite, e0, e1, e2, e3, e4, e5, e6, e7, DSICMD_TYPE,
    DSICMD_WC, DSICMD_WD0, DSICMD_TX, BTACNTRL1, STARTCNTRL,
    MIPI_DSI_DCS_SHORT_WRITE, MIPI_DCS_EXIT_SLEEP_MODE, U16MOD, U32MOD]

set_option maxHeartbeats 1000000 in
set_option maxRecDepth 8000 in
theorem phase3_txCount (dev : Dev) (hf1 : ∀ i, 1 ≤ i → dev.fail i = false)
    (he0 : dev.fail dev.txCount = false) :
    (phase3 dev).txCount = dev.txCount + 8 := by
  have e0 : dev.fail dev.txCount = false := he0
  have e1 : dev.fail (dev.txCount + 1) = false := hf1 _ (by omega)
  have e2 : dev.fail (dev.txCount + 2) = false := hf1 _ (by omega)
  have e3 : dev.fail (dev.txCount + 3) = false := hf1 _ (by omega)
  have e4 : dev.fail (dev.txCount + 4) = false := hf1 _ (by omega)
  have e5 : dev.fail (dev.txCount + 5) = false := hf1 _ (by omega)
  have e6 : dev.fail (dev.txCount + 6) = false := hf1 _ (by omega)
  have e7 : dev.fail (dev.txCount + 7) = false := hf1 _ (by omega)
  simp [phase3, xferShort, tcWrite, regmapWrite, e0, e1, e2, e3, e4, e5, e6, e7, DSICMD_TYPE,
    DSICMD_WC, DSICMD_WD0, DSICMD_TX, BTACNTRL1, STARTCNTRL,
    MIPI_DSI_DCS_SHORT_WRITE, MIPI_DCS_EXIT_SLEEP_MODE, U16MOD, U32MOD]

theorem phase3_fail (dev : Dev) : (phase3 dev).fail = dev.fail := by
  simp only [phase3, tcWrite_fail, xferShort_fail]

set_option maxHeartbeats 1000000 in
set_option maxRecDepth 8000 in
theorem phase3_regs50 (dev : Dev) (hf1 : ∀ i, 1 ≤ i → dev.fail i = false)
    (he0 : dev.fail dev.txCount = false) :
    (phase3 dev).regs 50 = dev.regs 50 := by
  have e0 : dev.fail dev.txCount = false := he0
  have e1 : dev.fail (dev.txCount + 1) = false := hf1 _ (by omega)
  have e2 : dev.fail (dev.txCount + 2) = false := hf1 _ (by omega)
  have e3 : dev.fail (dev.txCount + 3) = false := hf1 _ (by omega)
  have e4 : dev.fail (dev.txCount + 4) = false := hf1 _ (by omega)
  have e5 : dev.fail (dev.txCount + 5) = false := hf1 _ (by omega)
  have e6 : dev.fail (dev.txCount + 6) = false := hf1 _ (by omega)
  have e7 : dev.fail (dev.txCount + 7) = false := hf1 _ (by omega)
  simp [phase3, xferShort, tcWrite, regmapWrite, e0, e1, e2, e3, e4, e5, e6, e7, DSICMD_TYPE,
    DSICMD_WC, DSICMD_WD0, DSICMD_TX, BTACNTRL1, STARTCNTRL,
    MIPI_DSI_DCS_SHORT_WRITE, MIPI_DCS_EXIT_SLEEP_MODE, U16MOD, U32MOD]

set_option maxHeartbeats 1000000 in
set_option maxRecDepth 8000 in
theorem phase3_regs4 (dev : Dev) (hf1 : ∀ i, 1 ≤ i → dev.fail i = false)
    (he0 : dev.fail dev.txCount = false) :
    (phase3 dev).regs 4 = dev.regs 4 := by
  have e0 : dev.fail dev.txCount = false := he0
  have e1 : dev.fail (dev.txCount + 1) = false := hf1 _ (by omega)
  have e2 : dev.fail (dev.txCount + 2) = false := hf1 _ (by omega)
  have e3 : dev.fail (dev.txCount + 3) = false := hf1 _ (by omega)
  have e4 : dev.fail (dev.txCount + 4) = false := hf1 _ (by omega)
  have e5 : dev.fail (dev.txCount + 5) = false := hf1 _ (by omega)
  have e6 : dev.fail (dev.txCount + 6) = false := hf1 _ (by omega)
  have e7 : dev.fail (dev.txCount + 7) = false := hf1 _ (by omega)
  simp [phase3, xferShort, tcWrite, regmapWrite, e0, e1, e2, e3, e4, e5, e6, e7, DSICMD_TYPE,
    DSICMD_WC, DSICMD_WD0, DSICMD_TX, BTACNTRL1, STARTCNTRL,
    MIPI_DSI_DCS_SHORT_WRITE, MIPI_DCS_EXIT_SLEEP_MODE, U16MOD, U32MOD]

set_option maxHeartbeats 2000000 in
set_option maxRecDepth 8000 in
theorem phase4_trace (d : Ddata) (dev : Dev) (hf1 : ∀ i, 1 ≤ i → dev.fail i = false)
    (he0 : dev.fail dev.txCount = false) :
    (phase4 d dev).trace = dev.trace ++
      [.wr 1568 1, .wr 1570 ((d.vsw + d.vbp) % 4294967296 % 65536),
       .wr 1572 0, .wr 1574 1920, .wr 1576 (hswVal d % 4294967296 % 65536),
       .wr 1578 0, .wr 1580 3600, .wr 1304 1, .wr 1306 0, .wr 1280 167,
       .wr 1282 41728, .wr 1280 32768, .wr 1282 49920] := by
  have e0 : dev.fail dev.txCount = false := he0
  have e1 : dev.fail (dev.txCount + 1) = false := hf1 _ (by omega)
  have e2 : dev.fail (dev.txCount + 2) = false := hf1 _ (by omega)
  have e3 : dev.fail (dev.txCount + 3) = false := hf1 _ (by omega)
  have e4 : dev.fail (dev.txCount + 4) = false := hf1 _ (by omega)
  have e5 : dev.fail (dev.txCount + 5) = false := hf1 _ (by omega)
  have e6 : dev.fail (dev.txCount + 6) = false := hf1 _ (by omega)
  have e7 : dev.fail (dev.txCount + 7) = false := hf1 _ (by omega)
  have e8 : dev.fail (dev.txCount + 8) = false := hf1 _ (by omega)
  have e9 : dev.fail (dev.txCount + 9) = false := hf1 _ (by omega)
  have e10 : dev.fail (dev.txCount + 10) = false := hf1 _ (by omega)
  have e11 : dev.fail (dev.txCount + 11) = false := hf1 _ (by omega)
  have e12 : dev.fail (dev.txCount + 12) = false := hf1 _ (by omega)
  simp [phase4, tcWrite, regmapWrite, e0, e1, e2, e3, e4, e5, e6, e7, e8, e9, e10, e11, e12, DSI_EVENT, DSI_VSW, DSI_VBPR,
    DSI_VACT, DSI_HSW, DSI_HBPR, DSI_HACT, DSI_START, DSI_CONFW,
    U16MOD, U32MOD]

set_option maxHeartbeats 2000000 in
set_option maxRecDepth 8000 in
theorem phase4_txCount (d : Ddata) (dev : Dev) (hf1 : ∀ i, 1 ≤ i → dev.fail i = false)
    (he0 : dev.fail dev.txCount = false) :
    (phase4 d dev).txCount = dev.txCount + 13 := by
  have e0 : dev.fail dev.txCount = false := he0
  have e1 : dev.fail (dev.txCount + 1) = false := hf1 _ (by omega)
  have e2 : dev.fail (dev.txCount + 2) = false := hf1 _ (by omega)
  have e3 : dev.fail (dev.txCount + 3) = false := hf1 _ (by omega)
  have e4 : dev.fail (dev.txCount + 4) = false := hf1 _ (by omega)
  have e5 : dev.fail (dev.txCount + 5) = false := hf1 _ (by omega)
  have e6 : dev.fail (dev.txCount + 6) = false := hf1 _ (by omega)
  have e7 : dev.fail (dev.txCount + 7) = false := hf1 _ (by omega)
  have e8 : dev.fail (dev.txCount + 8) = false := hf1 _ (by omega)
  have e9 : dev.fail (dev.txCount + 9) = false := hf1 _ (by omega)
  have e10 : dev.fail (dev.txCount + 10) = false := hf1 _ (by omega)
  have e11 : dev.fail (dev.txCount + 11) = false := hf1 _ (by omega)
  have e12 : dev.fail (dev.txCount + 12) = false := hf1 _ (by omega)
  simp [phase4, tcWrite, regmapWrite, e0, e1, e2, e3, e4, e5, e6, e7, e8, e9, e10, e11, e12, DSI_EVENT, DSI_VSW, DSI_VBPR,
    DSI_VACT, DSI_HSW, DSI_HBPR, DSI_HACT, DSI_START, DSI_CONFW,
    U16MOD, U32MOD]

theorem phase4_fail (d : Ddata) (dev : Dev) :
    (phase4 d dev).fail = dev.fail := by
  simp only [phase4, tcWrite_fail]

set_option maxHeartbeats 2000000 in
set_option maxRecDepth 8000 in
theorem phase4_regs50 (d : Ddata) (dev : Dev) (hf1 : ∀ i, 1 ≤ i → dev.fail i = false)
    (he0 : dev.fail dev.txCount = false) :
    (phase4 d dev).regs 50 = dev.regs 50 := by
  have e0 : dev.fail dev.txCount = false := he0
  have e1 : dev.fail (dev.txCount + 1) = false := hf1 _ (by omega)
  have e2 : dev.fail (dev.txCount + 2) = false := hf1 _ (by omega)
  have e3 : dev.fail (dev.txCount + 3) = false := hf1 _ (by omega)
  have e4 : dev.fail (dev.txCount + 4) = false := hf1 _ (by omega)
  have e5 : dev.fail (dev.txCount + 5) = false := hf1 _ (by omega)
  have e6 : dev.fail (dev.txCount + 6) = false := hf1 _ (by omega)
  have e7 : dev.fail (dev.txCount + 7) = false := hf1 _ (by omega)
  have e8 : dev.fail (dev.txCount + 8) = false := hf1 _ (by omega)
  have e9 : dev.fail (dev.txCount + 9) = false := hf1 _ (by omega)
  have e10 : dev.fail (dev.txCount + 10) = false := hf1 _ (by omega)
  have e11 : dev.fail (dev.txCount + 11) = false := hf1 _ (by omega)
  have e12 : dev.fail (dev.txCount + 12) = false := hf1 _ (by omega)
  simp [phase4, tcWrite, regmapWrite, e0, e1, e2, e3, e4, e5, e6, e7, e8, e9, e10, e11, e12, DSI_EVENT, DSI_VSW, DSI_VBPR,
    DSI_VACT, DSI_HSW, DSI_HBPR, DSI_HACT, DSI_START, DSI_CONFW,
    U16MOD, U32MOD]

set_option maxHeartbeats 2000000 in
set_option maxRecDepth 8000 in
theorem phase4_regs4 (d : Ddata) (dev : Dev) (hf1 : ∀ i, 1 ≤ i → dev.fail i = false)
    (he0 : dev.fail dev.txCount = false) :
    (phase4 d dev).regs 4 = dev.regs 4 := by
  have e0 : dev.fail dev.txCount = false := he0
  have e1 : dev.fail (dev.txCount + 1) = false := hf1 _ (by omega)
  have e2 : dev.fail (dev.txCount + 2) = false := hf1 _ (by omega)
  have e3 : dev.fail (dev.txCount + 3) = false := hf1 _ (by omega)
  have e4 : dev.fail (dev.txCount + 4) = false := hf1 _ (by omega)
  have e5 : dev.fail (dev.txCount + 5) = false := hf1 _ (by omega)
  have e6 : dev.fail (dev.txCount + 6) = false := hf1 _ (by omega)
  have e7 : dev.fail (dev.txCount + 7) = false := hf1 _ (by omega)
  have e8 : dev.fail (dev.txCount + 8) = false := hf1 _ (by omega)
  have e9 : dev.fail (dev.txCount + 9) = false := hf1 _ (by omega)
  have e10 : dev.fail (dev.txCount + 10) = false := hf1 _ (by omega)
  have e11 : dev.fail (dev.txCount + 11) = false := hf1 _ (by omega)
  have e12 : dev.fail (dev.txCount + 12) = false := hf1 _ (by omega)
  simp [phase4, tcWrite, regmapWrite, e0, e1, e2, e3, e4, e5, e6, e7, e8, e9, e10, e11, e12, DSI_EVENT, DSI_VSW, DSI_VBPR,
    DSI_VACT, DSI_HSW, DSI_HBPR, DSI_HACT, DSI_START, DSI_CONFW,
    U16MOD, U32MOD]

set_option maxHeartbeats 1000000 in
set_option maxRecDepth 8000 in
theorem phase5_trace (dev : Dev) (hf1 : ∀ i, 1 ≤ i → dev.fail i = false)
    (he0 : dev.fail dev.txCount = false)
    (h50 : dev.regs 50 = 0) (h4 : dev.regs 4 = 0) :
    (phase5 dev).trace = dev.trace ++ [.rd 50, .rd 4, .wr 4 64] := by
  have e0 : dev.fail dev.txCount = false := he0
  have e1 : dev.fail (dev.txCount + 1) = false := hf1 _ (by omega)
  have e2 : dev.fail (dev.txCount + 2) = false := hf1 _ (by omega)
  simp [phase5, tcUpdateBits, tcRead, regmapRead, tcWrite, regmapWrite,
    e0, e1, e2, h50, h4, PP_MISC, CONFCTL, U16MOD, U32MOD, UINT_MAX]

set_option maxHeartbeats 1000000 in
set_option maxRecDepth 8000 in
theorem phase5_txCount (dev : Dev) (hf1 : ∀ i, 1 ≤ i → dev.fail i = false)
    (he0 : dev.fail dev.txCount = false)
    (h50 : dev.regs 50 = 0) (h4 : dev.regs 4 = 0) :
    (phase5 dev).txCount = dev.txCount + 3 := by
  have e0 : dev.fail dev.txCount = false := he0
  have e1 : dev.fail (dev.txCount + 1) = false := hf1 _ (by omega)
  have e2 : dev.fail (dev.txCount + 2) = false := hf1 _ (by omega)
  simp [phase5, tcUpdateBits, tcRead, regmapRead, tcWrite, regmapWrite,
    e0, e1, e2, h50, h4, PP_MISC, CONFCTL, U16MOD, U32MOD, UINT_MAX]

theorem tcRead_fail (dev : Dev) (reg : Nat) :
    (tcRead dev reg).1.fail = dev.fail := by
  simp only [tcRead]
  split
  · exact regmapRead_fail ..
  · split
    · exact regmapRead_fail ..
    · split
      · rw [regmapRead_fail, regmapRead_fail]
      · rw [regmapRead_fail, regmapRead_fail]

theorem tcUpdateBits_fail (dev : Dev) (reg mask val : Nat) :
    (tcUpdateBits dev reg mask val).1.fail = dev.fail := by
  simp only [tcUpdateBits]
  split
  · exact tcRead_fail ..
  · split
    · rw [tcWrite_fail, tcRead_fail]
    · exact tcRead_fail ..

theorem phase5_fail (dev : Dev) : (phase5 dev).fail = dev.fail := by
  simp only [phase5, tcUpdateBits_fail]

theorem powerOn_fail (d : Ddata) (dev : Dev) :
    (powerOn d dev).fail = dev.fail := by
  rw [powerOn_phases, phase5_fail, phase4_fail, phase3_fail, phase2_fail,
    phase1_fail]

/-- The 63 bus events of tc358768_power_on from a clean device state. -/
def powerOnEvents (d : Ddata) : List Ev :=
  [.wr 2 1, .wr 2 0,
   .wr 22 ((d.prd <<< 12 ||| d.fbd) % 4294967296 % 65536),
   .wr 24 (pllctl1NoCken d.frs),
   .sleepUs 1000 2000,
   .wr 24 (pllctl1Cken d.frs),
   .wr 6 1, .wr 8 55, .wr 80 62,
   .wr 320 0, .wr 322 0, .wr 324 0, .wr 326 0, .wr 328 0, .wr 330 0,
   .wr 332 0, .wr 334 0, .wr 336 0, .wr 338 0, .wr 528 11400,
   .wr 530 0, .wr 532 5, .wr 534 0, .wr 536 7942, .wr 538 0, .wr 540 3,
   .wr 542 0, .wr 544 1542, .wr 546 0, .wr 548 19080, .wr 550 0,
   .wr 552 11, .wr 554 0, .wr 556 4, .wr 558 0, .wr 564 31, .wr 566 0,
   .wr 568 1, .wr 570 0,
   .wr 1538 4101, .wr 1540 0, .wr 1552 17, .wr 1536 1, .wr 572 5,
   .wr 574 5, .wr 516 1, .wr 518 0,
   .wr 1568 1, .wr 1570 ((d.vsw + d.vbp) % 4294967296 % 65536),
   .wr 1572 0, .wr 1574 1920, .wr 1576 (hswVal d % 4294967296 % 65536),
   .wr 1578 0, .wr 1580 3600, .wr 1304 1, .wr 1306 0, .wr 1280 167,
   .wr 1282 41728, .wr 1280 32768, .wr 1282 49920,
   .rd 50, .rd 4, .wr 4 64]

/-- The full bus trace of tc358768_power_on from a device state with no bus
faults and PP_MISC and CONFCTL reading zero. -/
theorem powerOn_trace (d : Ddata) (dev : Dev)
    (hnf : ∀ i, dev.fail i = false)
    (h50 : dev.regs 50 = 0) (h4 : dev.regs 4 = 0) :
    (powerOn d dev).trace = dev.trace ++ powerOnEvents d := by
  have hnf1 : ∀ i, (phase1 d dev).fail i = false := by
    intro i
    rw [phase1_fail]
    exact hnf i
  have hnf2 : ∀ i, (phase2 (phase1 d dev)).fail i = false := by
    intro i
    rw [phase2_fail]
    exact hnf1 i
  have hnf3 : ∀ i, (phase3 (phase2 (phase1 d dev))).fail i = false := by
    intro i
    rw [phase3_fail]
    exact hnf2 i
  have hnf4 : ∀ i,
      (phase4 d (phase3 (phase2 (phase1 d dev)))).fail i = false := by
    intro i
    rw [phase4_fail]
    exact hnf3 i
  have h50a : (phase1 d dev).regs 50 = 0 := by
    rw [phase1_regs d dev hnf 50 (by decide) (by decide) (by decide)
      (by decide) (by decide) (by decide)]
    exact h50
  have h50b : (phase2 (phase1 d dev)).regs 50 = 0 := by
    rw [phase2_regs50 _ (fun i _ => hnf1 i) (hnf1 _)]
    exact h50a
  have h50c : (phase3 (phase2 (phase1 d dev))).regs 50 = 0 := by
    rw [phase3_regs50 _ (fun i _ => hnf2 i) (hnf2 _)]
    exact h50b
  have h50d : (phase4 d (phase3 (phase2 (phase1 d dev)))).regs 50 = 0 := by
    rw [phase4_regs50 _ _ (fun i _ => hnf3 i) (hnf3 _)]
    exact h50c
  have h4a : (phase1 d dev).regs 4 = 0 := by
    rw [phase1_regs d dev hnf 4 (by decide) (by decide) (by decide)
      (by decide) (by decide) (by decide)]
    exact h4
  have h4b : (phase2 (phase1 d dev)).regs 4 = 0 := by
    rw [phase2_regs4 _ (fun i _ => hnf1 i) (hnf1 _)]
    exact h4a
  have h4c : (phase3 (phase2 (phase1 d dev))).regs 4 = 0 := by
    rw [phase3_regs4 _ (fun i _ => hnf2 i) (hnf2 _)]
    exact h4b
  have h4d : (phase4 d (phase3 (phase2 (phase1 d dev)))).regs 4 = 0 := by
    rw [phase4_regs4 _ _ (fun i _ => hnf3 i) (hnf3 _)]
    exact h4c
  rw [powerOn_phases,
    phase5_trace _ (fun i _ => hnf4 i) (hnf4 _) h50d h4d,
    phase4_trace _ _ (fun i _ => hnf3 i) (hnf3 _),
    phase3_trace _ (fun i _ => hnf2 i) (hnf2 _),
    phase2_trace _ (fun i _ => hnf1 i) (hnf1 _), phase1_trace d dev hnf]
  simp [powerOnEvents, List.append_assoc]

theorem xfer_turnOn_trace (dev : Dev) (hf1 : ∀ i, 1 ≤ i → dev.fail i = false)
    (he0 : dev.fail dev.txCount = false) :
    (xferShort dev MIPI_DSI_TURN_ON_PERIPHERAL 0 0).1.trace =
      dev.trace ++ [.wr 1538 4146, .wr 1540 0, .wr 1552 0, .wr 1536 1] := by
  have e0 : dev.fail dev.txCount = false := he0
  have e1 : dev.fail (dev.txCount + 1) = false := hf1 _ (by omega)
  have e2 : dev.fail (dev.txCount + 2) = false := hf1 _ (by omega)
  have e3 : dev.fail (dev.txCount + 3) = false := hf1 _ (by omega)
  simp [xferShort, tcWrite, regmapWrite, e0, e1, e2, e3, DSICMD_TYPE, DSICMD_WC,
    DSICMD_WD0, DSICMD_TX, MIPI_DSI_TURN_ON_PERIPHERAL, U16MOD, U32MOD]

theorem xfer_turnOn_txCount (dev : Dev) (hf1 : ∀ i, 1 ≤ i → dev.fail i = false)
    (he0 : dev.fail dev.txCount = false) :
    (xferShort dev MIPI_DSI_TURN_ON_PERIPHERAL 0 0).1.txCount =
      dev.txCount + 4 := by
  have e0 : dev.fail dev.txCount = false := he0
  have e1 : dev.fail (dev.txCount + 1) = false := hf1 _ (by omega)
  have e2 : dev.fail (dev.txCount + 2) = false := hf1 _ (by omega)
  have e3 : dev.fail (dev.txCount + 3) = false := hf1 _ (by omega)
  simp [xferShort, tcWrite, regmapWrite, e0, e1, e2, e3, DSICMD_TYPE, DSICMD_WC,
    DSICMD_WD0, DSICMD_TX, MIPI_DSI_TURN_ON_PERIPHERAL, U16MOD, U32MOD]

theorem xfer_pixfmt_trace (dev : Dev) (hf1 : ∀ i, 1 ≤ i → dev.fail i = false)
    (he0 : dev.fail dev.txCount = false) :
    (xferShort dev MIPI_DSI_DCS_SHORT_WRITE_PARAM MIPI_DCS_SET_PIXEL_FORMAT
      MIPI_DCS_PIXEL_FMT_24BIT).1.trace =
      dev.trace ++
        [.wr 1538 4117, .wr 1540 0, .wr 1552 30522, .wr 1536 1] := by
  have e0 : dev.fail dev.txCount = false := he0
  have e1 : dev.fail (dev.txCount + 1) = false := hf1 _ (by omega)
  have e2 : dev.fail (dev.txCount + 2) = false := hf1 _ (by omega)
  have e3 : dev.fail (dev.txCount + 3) = false := hf1 _ (by omega)
  simp [xferShort, tcWrite, regmapWrite, e0, e1, e2, e3, DSICMD_TYPE, DSICMD_WC,
    DSICMD_WD0, DSICMD_TX, MIPI_DSI_DCS_SHORT_WRITE_PARAM,
    MIPI_DCS_SET_PIXEL_FORMAT, MIPI_DCS_PIXEL_FMT_24BIT, U16MOD, U32MOD]

/-- The 72 events of tc358768_enable from a clean device state, given the
solved configuration d2. -/
def enableEvents (d2 : Ddata) : List Ev :=
  .sleepUs 1000 2000 :: powerOnEvents d2 ++
    [.wr 1538 4146, .wr 1540 0, .wr 1552 0, .wr 1536 1,
     .wr 1538 4117, .wr 1540 0, .wr 1552 30522, .wr 1536 1]

/-- The full bus trace of a successful tc358768_enable from a clean device
state. -/
theorem enable_trace (d d2 : Ddata) (h : calcPll d = (d2, 0)) :
    (enable d (initDev regs0 noFail)).2.1.trace = enableEvents d2 ∧
    (enable d (initDev regs0 noFail)).1 = d2 ∧
    (enable d (initDev regs0 noFail)).2.2 = 0 := by
  simp only [enable, h]
  rw [if_neg (by decide)]
  refine ⟨?_, rfl, rfl⟩
  have hnfP : ∀ i,
      (powerOn d2 (sleepUsEv (initDev regs0 noFail) 1000 2000)).fail i =
        false := by
    intro i
    rw [powerOn_fail]
    rfl
  have hnfX : ∀ i,
      ((xferShort (powerOn d2 (sleepUsEv (initDev regs0 noFail) 1000 2000))
        MIPI_DSI_TURN_ON_PERIPHERAL 0 0).1).fail i = false := by
    intro i
    rw [xferShort_fail]
    exact hnfP i
  rw [xfer_pixfmt_trace _ (fun i _ => hnfX i) (hnfX _),
    xfer_turnOn_trace _ (fun i _ => hnfP i) (hnfP _),
    powerOn_trace d2 _ (fun i => rfl) rfl rfl]
  simp [enableEvents, sleepUsEv, initDev, List.append_assoc]

/-- Does this event write register reg? -/
def isWrTo (reg : Nat) : Ev → Bool
  | .wr r _ => r == reg
  | _ => false

/-- CKEN (bit 4) is clear in the PLL-enable-without-clock value. -/
theorem pllctl1NoCken_bit4 (f : Nat) :
    Nat.testBit (pllctl1NoCken f) 4 = false := by
  unfold pllctl1NoCken
  rw [show (65536 : Nat) = 2 ^ 16 from rfl,
    show (4294967296 : Nat) = 2 ^ 32 from rfl,
    Nat.testBit_mod_two_pow, Nat.testBit_mod_two_pow]
  simp [Nat.testBit_lor, Nat.testBit_shiftLeft]
  decide

/-- CKEN (bit 4) is set in the PLL-enable-with-clock value. -/
theorem pllctl1Cken_bit4 (f : Nat) :
    Nat.testBit (pllctl1Cken f) 4 = true := by
  unfold pllctl1Cken
  rw [show (65536 : Nat) = 2 ^ 16 from rfl,
    show (4294967296 : Nat) = 2 ^ 32 from rfl,
    Nat.testBit_mod_two_pow, Nat.testBit_mod_two_pow]
  simp [Nat.testBit_lor, Nat.testBit_shiftLeft]
  decide

/-- C9: in the bus trace of a successful enable from a clean device state,
the PLLCTL1 write without CKEN (the clock-output enable bit, bit 4) is at
position 4, the 1000-2000 us lock wait at position 5 and the PLLCTL1 write
with CKEN at position 6 — strictly ordered with the settle delay between
them, and these are the only two PLLCTL1 writes; the DSI_CONFW high-half
write carrying the SET opcode (0xA300, opcode 5 in bits 31:29 of
0xA30000A7) is at position 58, strictly before the high-half write carrying
the CLEAR opcode (0xC300, opcode 6 of 0xC3008000) at position 60, and these
are the only two writes of that half-register. -/
theorem C9_sequencing (d d2 : Ddata) (h : calcPll d = (d2, 0)) :
    (enable d (initDev regs0 noFail)).2.1.trace.get? 4 =
      some (.wr 24 (pllctl1NoCken d2.frs)) ∧
    (enable d (initDev regs0 noFail)).2.1.trace.get? 5 =
      some (.sleepUs 1000 2000) ∧
    (enable d (initDev regs0 noFail)).2.1.trace.get? 6 =
      some (.wr 24 (pllctl1Cken d2.frs)) ∧
    Nat.testBit (pllctl1NoCken d2.frs) 4 = false ∧
    Nat.testBit (pllctl1Cken d2.frs) 4 = true ∧
    (enable d (initDev regs0 noFail)).2.1.trace.filter (isWrTo 24) =
      [.wr 24 (pllctl1NoCken d2.frs), .wr 24 (pllctl1Cken d2.frs)] ∧
    (enable d (initDev regs0 noFail)).2.1.trace.get? 58 =
      some (.wr 1282 41728) ∧
    (enable d (initDev regs0 noFail)).2.1.trace.get? 60 =
      some (.wr 1282 49920) ∧
    (enable d (initDev regs0 noFail)).2.1.trace.filter (isWrTo 1282) =
      [.wr 1282 41728, .wr 1282 49920] := by
  rw [(enable_trace d d2 h).1]
  refine ⟨rfl, rfl, rfl, pllctl1NoCken_bit4 d2.frs, pllctl1Cken_bit4 d2.frs,
    ?_, rfl, rfl, ?_⟩
  · simp [enableEvents, powerOnEvents, isWrTo]
  · simp [enableEvents, powerOnEvents, isWrTo]

/-- C9 witness: the sequencing facts on the FORTEC configuration. -/
theorem C9_sequencing_witness :
    (enable fortec (initDev regs0 noFail)).2.1.trace.get? 4 =
      some (.wr 24 (pllctl1NoCken fortecSolved.frs)) ∧
    (enable fortec (initDev regs0 noFail)).2.1.trace.get? 5 =
      some (.sleepUs 1000 2000) ∧
    (enable fortec (initDev regs0 noFail)).2.1.trace.get? 6 =
      some (.wr 24 (pllctl1Cken fortecSolved.frs)) ∧
    Nat.testBit (pllctl1NoCken fortecSolved.frs) 4 = false ∧
    Nat.testBit (pllctl1Cken fortecSolved.frs) 4 = true ∧
    (enable fortec (initDev regs0 noFail)).2.1.trace.filter (isWrTo 24) =
      [.wr 24 (pllctl1NoCken fortecSolved.frs),
       .wr 24 (pllctl1Cken fortecSolved.frs)] ∧
    (enable fortec (initDev regs0 noFail)).2.1.trace.get? 58 =
      some (.wr 1282 41728) ∧
    (enable fortec (initDev regs0 noFail)).2.1.trace.get? 60 =
      some (.wr 1282 49920) ∧
    (enable fortec (initDev regs0 noFail)).2.1.trace.filter (isWrTo 1282) =
      [.wr 1282 41728, .wr 1282 49920] :=
  C9_sequencing fortec fortecSolved calcPll_fortec

/-- C6 (amended): in the bring-up trace from a clean device state, the
single write to the horizontal sync-width register DSI_HSW (0x0628) carries
((hsw + hbp) mod 2^32) * (bitclk / 4) * dsi_ndl (u64 products mod 2^64)
/ pixelclock, reduced mod 2^32 by the u32 cast and mod 2^16 by the 16-bit
bus, and the single write to the vertical sync-width register DSI_VSW
(0x0622) carries (vsw + vbp) mod 2^32, reduced mod 2^16 by the bus. -/
theorem C6_timing_registers (d : Ddata) (dev : Dev)
    (hnf : ∀ i, dev.fail i = false) (h50 : dev.regs 50 = 0)
    (h4 : dev.regs 4 = 0) (htr : dev.trace = []) :
    (powerOn d dev).trace.filter (isWrTo 1576) =
      [.wr 1576 ((d.hsw + d.hbp) % U32MOD * (d.bitclk % U32MOD / 4) %
        U64MOD * d.dsi_ndl % U64MOD / d.pixelclock % U32MOD % U16MOD)] ∧
    (powerOn d dev).trace.filter (isWrTo 1570) =
      [.wr 1570 ((d.vsw + d.vbp) % U32MOD % U16MOD)] := by
  rw [powerOn_trace d dev hnf h50 h4, htr]
  constructor
  · simp [powerOnEvents, isWrTo, hswVal, U32MOD, U64MOD, U16MOD]
  · simp [powerOnEvents, isWrTo, U32MOD, U16MOD]

/-- A Device Configuration with the FORTEC clocks and solved PLL but sync
and porch fields of 2^31, on which every u32 sum in the timing derivation
wraps to zero. -/
def cexC6 : Ddata :=
  { dpi_ndl := 24
    dsi_ndl := 4
    fbd := 23
    prd := 0
    frs := 0
    bitclk := 464700000
    pixelclock := 154900000
    refclk := 38725000
    hsw := 2147483648
    hbp := 2147483648
    vsw := 2147483648
    vbp := 2147483648 }

/-- C6 counterexample: on cexC6 (hsw = hbp = vsw = vbp = 2^31, a valid u32
configuration with a solved PLL), the value written to DSI_HSW is 0 and the
value written to DSI_VSW is 0, while the claimed quantities
(hsw + hbp) * (bitclk / 4) * dsi_ndl / pixelclock and vsw + vbp are far
from 0: the u32 wrap of hsw + hbp and vsw + vbp is observable. -/
theorem C6_timing_registers_cex :
    (powerOn cexC6 (initDev regs0 noFail)).trace.filter (isWrTo 1576) =
      [.wr 1576 0] ∧
    cexC6.hsw + cexC6.hbp ≠ 0 ∧
    (cexC6.hsw + cexC6.hbp) * (cexC6.bitclk / 4) * cexC6.dsi_ndl /
      cexC6.pixelclock ≠ 0 ∧
    (powerOn cexC6 (initDev regs0 noFail)).trace.filter (isWrTo 1570) =
      [.wr 1570 0] ∧
    cexC6.vsw + cexC6.vbp ≠ 0 := by
  rw [powerOn_trace cexC6 _ (fun i => rfl) rfl rfl]
  refine ⟨?_, by decide, by decide, ?_, by decide⟩
  · simp [powerOnEvents, isWrTo, initDev]
    decide
  · simp [powerOnEvents, isWrTo, initDev]
    decide

/-- C6 witness: on the solved FORTEC configuration the DSI_HSW write
carries (1 + 60) * (464700000 / 4) * 4 / 154900000 = 183 and the DSI_VSW
write carries 1 + 25 = 26. -/
theorem C6_timing_registers_witness :
    ((powerOn fortecSolved (initDev regs0 noFail)).trace.filter
      (isWrTo 1576) =
      [.wr 1576 ((fortecSolved.hsw + fortecSolved.hbp) % U32MOD *
        (fortecSolved.bitclk % U32MOD / 4) % U64MOD * fortecSolved.dsi_ndl %
        U64MOD / fortecSolved.pixelclock % U32MOD % U16MOD)] ∧
    (powerOn fortecSolved (initDev regs0 noFail)).trace.filter
      (isWrTo 1570) =
      [.wr 1570 ((fortecSolved.vsw + fortecSolved.vbp) % U32MOD %
        U16MOD)]) ∧
    (fortecSolved.hsw + fortecSolved.hbp) % U32MOD *
      (fortecSolved.bitclk % U32MOD / 4) % U64MOD * fortecSolved.dsi_ndl %
      U64MOD / fortecSolved.pixelclock % U32MOD % U16MOD = 183 ∧
    (fortecSolved.vsw + fortecSolved.vbp) % U32MOD % U16MOD = 26 :=
  ⟨C6_timing_registers fortecSolved (initDev regs0 noFail) (fun i => rfl)
    rfl rfl rfl, by decide, by decide⟩

set_option maxHeartbeats 1000000 in
set_option maxRecDepth 8000 in
theorem phase1_ff_trace :
    (phase1 fortecSolved
      (sleepUsEv (initDev regs0 failFirst) 1000 2000)).trace =
      .sleepUs 1000 2000 ::
      [.wr 2 1, .wr 2 0,
       .wr 22 ((fortecSolved.prd <<< 12 ||| fortecSolved.fbd) %
         4294967296 % 65536),
       .wr 24 (pllctl1NoCken fortecSolved.frs),
       .sleepUs 1000 2000,
       .wr 24 (pllctl1Cken fortecSolved.frs),
       .wr 6 1, .wr 8 55, .wr 80 62] := by
  simp [phase1, swReset, setupPll, sleepUsEv, tcWrite, regmapWrite,
    initDev, regs0, failFirst, fortecSolved, fortec,
    SYSCTL, PLLCTL0, PLLCTL1, VSDLY, DATAFMT, DSITX_DT, U16MOD, U32MOD,
    pllctl1NoCken, pllctl1Cken]

set_option maxHeartbeats 1000000 in
set_option maxRecDepth 8000 in
theorem phase1_ff_txCount :
    (phase1 fortecSolved
      (sleepUsEv (initDev regs0 failFirst) 1000 2000)).txCount = 8 := by
  simp [phase1, swReset, setupPll, sleepUsEv, tcWrite, regmapWrite,
    initDev, regs0, failFirst, fortecSolved, fortec,
    SYSCTL, PLLCTL0, PLLCTL1, VSDLY, DATAFMT, DSITX_DT, U16MOD, U32MOD]

set_option maxHeartbeats 1000000 in
set_option maxRecDepth 8000 in
theorem phase1_ff_regs50 :
    (phase1 fortecSolved
      (sleepUsEv (initDev regs0 failFirst) 1000 2000)).regs 50 = 0 := by
  simp [phase1, swReset, setupPll, sleepUsEv, tcWrite, regmapWrite,
    initDev, regs0, failFirst, fortecSolved, fortec,
    SYSCTL, PLLCTL0, PLLCTL1, VSDLY, DATAFMT, DSITX_DT, U16MOD, U32MOD]

set_option maxHeartbeats 1000000 in
set_option maxRecDepth 8000 in
theorem phase1_ff_regs4 :
    (phase1 fortecSolved
      (sleepUsEv (initDev regs0 failFirst) 1000 2000)).regs 4 = 0 := by
  simp [phase1, swReset, setupPll, sleepUsEv, tcWrite, regmapWrite,
    initDev, regs0, failFirst, fortecSolved, fortec,
    SYSCTL, PLLCTL0, PLLCTL1, VSDLY, DATAFMT, DSITX_DT, U16MOD, U32MOD]

set_option maxHeartbeats 4000000 in
set_option maxRecDepth 8000 in
/-- The bus trace of phases 2-5 of power_on, assuming only that no bus
transaction after the very first one faults. -/
theorem powerOn_tail_trace (d : Ddata) (dev : Dev)
    (hf1 : ∀ i, 1 ≤ i → dev.fail i = false)
    (he0 : dev.fail dev.txCount = false)
    (h50 : dev.regs 50 = 0) (h4 : dev.regs 4 = 0) :
    (phase5 (phase4 d (phase3 (phase2 dev)))).trace = dev.trace ++
      [.wr 320 0, .wr 322 0, .wr 324 0, .wr 326 0, .wr 328 0, .wr 330 0,
       .wr 332 0, .wr 334 0, .wr 336 0, .wr 338 0, .wr 528 11400,
       .wr 530 0, .wr 532 5, .wr 534 0, .wr 536 7942, .wr 538 0, .wr 540 3,
       .wr 542 0, .wr 544 1542, .wr 546 0, .wr 548 19080, .wr 550 0,
       .wr 552 11, .wr 554 0, .wr 556 4, .wr 558 0, .wr 564 31, .wr 566 0,
       .wr 568 1, .wr 570 0,
       .wr 1538 4101, .wr 1540 0, .wr 1552 17, .wr 1536 1, .wr 572 5,
       .wr 574 5, .wr 516 1, .wr 518 0,
       .wr 1568 1, .wr 1570 ((d.vsw + d.vbp) % 4294967296 % 65536),
       .wr 1572 0, .wr 1574 1920, .wr 1576 (hswVal d % 4294967296 % 65536),
       .wr 1578 0, .wr 1580 3600, .wr 1304 1, .wr 1306 0, .wr 1280 167,
       .wr 1282 41728, .wr 1280 32768, .wr 1282 49920,
       .rd 50, .rd 4, .wr 4 64] := by
  have hfl2 : (phase2 dev).fail = dev.fail := phase2_fail dev
  have hfl3 : (phase3 (phase2 dev)).fail = dev.fail := by
    rw [phase3_fail, hfl2]
  have hfl4 : (phase4 d (phase3 (phase2 dev))).fail = dev.fail := by
    rw [phase4_fail, hfl3]
  have hc2 : (phase2 dev).txCount = dev.txCount + 30 :=
    phase2_txCount dev hf1 he0
  have hf1b : ∀ i, 1 ≤ i → (phase2 dev).fail i = false := by
    intro i hi
    rw [hfl2]
    exact hf1 i hi
  have he0b : (phase2 dev).fail ((phase2 dev).txCount) = false := by
    rw [hfl2, hc2]
    exact hf1 _ (by omega)
  have hc3 : (phase3 (phase2 dev)).txCount = dev.txCount + 38 := by
    rw [phase3_txCount _ hf1b he0b, hc2]
  have hf1c : ∀ i, 1 ≤ i → (phase3 (phase2 dev)).fail i = false := by
    intro i hi
    rw [hfl3]
    exact hf1 i hi
  have he0c : (phase3 (phase2 dev)).fail
      ((phase3 (phase2 dev)).txCount) = false := by
    rw [hfl3, hc3]
    exact hf1 _ (by omega)
  have hf1d : ∀ i, 1 ≤ i →
      (phase4 d (phase3 (phase2 dev))).fail i = false := by
    intro i hi
    rw [hfl4]
    exact hf1 i hi
  have hc4 : (phase4 d (phase3 (phase2 dev))).txCount =
      dev.txCount + 51 := by
    rw [phase4_txCount _ _ hf1c he0c, hc3]
  have he0d : (phase4 d (phase3 (phase2 dev))).fail
      ((phase4 d (phase3 (phase2 dev))).txCount) = false := by
    rw [hfl4, hc4]
    exact hf1 _ (by omega)
  have h50b : (phase2 dev).regs 50 = 0 := by
    rw [phase2_regs50 dev hf1 he0]
    exact h50
  have h50c : (phase3 (phase2 dev)).regs 50 = 0 := by
    rw [phase3_regs50 _ hf1b he0b]
    exact h50b
  have h50d : (phase4 d (phase3 (phase2 dev))).regs 50 = 0 := by
    rw [phase4_regs50 _ _ hf1c he0c]
    exact h50c
  have h4b : (phase2 dev).regs 4 = 0 := by
    rw [phase2_regs4 dev hf1 he0]
    exact h4
  have h4c : (phase3 (phase2 dev)).regs 4 = 0 := by
    rw [phase3_regs4 _ hf1b he0b]
    exact h4b
  have h4d : (phase4 d (phase3 (phase2 dev))).regs 4 = 0 := by
    rw [phase4_regs4 _ _ hf1c he0c]
    exact h4c
  rw [phase5_trace _ hf1d he0d h50d h4d, phase4_trace _ _ hf1c he0c,
    phase3_trace _ hf1b he0b, phase2_trace dev hf1 he0]
  simp [List.append_assoc]

set_option maxHeartbeats 4000000 in
set_option maxRecDepth 8000 in
/-- The transaction count added by phases 2-5 of power_on, assuming only
that no bus transaction after the very first one faults. -/
theorem powerOn_tail_txCount (d : Ddata) (dev : Dev)
    (hf1 : ∀ i, 1 ≤ i → dev.fail i = false)
    (he0 : dev.fail dev.txCount = false)
    (h50 : dev.regs 50 = 0) (h4 : dev.regs 4 = 0) :
    (phase5 (phase4 d (phase3 (phase2 dev)))).txCount =
      dev.txCount + 54 := by
  have hfl2 : (phase2 dev).fail = dev.fail := phase2_fail dev
  have hfl3 : (phase3 (phase2 dev)).fail = dev.fail := by
    rw [phase3_fail, hfl2]
  have hfl4 : (phase4 d (phase3 (phase2 dev))).fail = dev.fail := by
    rw [phase4_fail, hfl3]
  have hc2 : (phase2 dev).txCount = dev.txCount + 30 :=
    phase2_txCount dev hf1 he0
  have hf1b : ∀ i, 1 ≤ i → (phase2 dev).fail i = false := by
    intro i hi
    rw [hfl2]
    exact hf1 i hi
  have he0b : (phase2 dev).fail ((phase2 dev).txCount) = false := by
    rw [hfl2, hc2]
    exact hf1 _ (by omega)
  have hc3 : (phase3 (phase2 dev)).txCount = dev.txCount + 38 := by
    rw [phase3_txCount _ hf1b he0b, hc2]
  have hf1c : ∀ i, 1 ≤ i → (phase3 (phase2 dev)).fail i = false := by
    intro i hi
    rw [hfl3]
    exact hf1 i hi
  have he0c : (phase3 (phase2 dev)).fail
      ((phase3 (phase2 dev)).txCount) = false := by
    rw [hfl3, hc3]
    exact hf1 _ (by omega)
  have hf1d : ∀ i, 1 ≤ i →
      (phase4 d (phase3 (phase2 dev))).fail i = false := by
    intro i hi
    rw [hfl4]
    exact hf1 i hi
  have hc4 : (phase4 d (phase3 (phase2 dev))).txCount =
      dev.txCount + 51 := by
    rw [phase4_txCount _ _ hf1c he0c, hc3]
  have he0d : (phase4 d (phase3 (phase2 dev))).fail
      ((phase4 d (phase3 (phase2 dev))).txCount) = false := by
    rw [hfl4, hc4]
    exact hf1 _ (by omega)
  have h50b : (phase2 dev).regs 50 = 0 := by
    rw [phase2_regs50 dev hf1 he0]
    exact h50
  have h50c : (phase3 (phase2 dev)).regs 50 = 0 := by
    rw [phase3_regs50 _ hf1b he0b]
    exact h50b
  have h50d : (phase4 d (phase3 (phase2 dev))).regs 50 = 0 := by
    rw [phase4_regs50 _ _ hf1c he0c]
    exact h50c
  have h4b : (phase2 dev).regs 4 = 0 := by
    rw [phase2_regs4 dev hf1 he0]
    exact h4
  have h4c : (phase3 (phase2 dev)).regs 4 = 0 := by
    rw [phase3_regs4 _ hf1b he0b]
    exact h4b
  have h4d : (phase4 d (phase3 (phase2 dev))).regs 4 = 0 := by
    rw [phase4_regs4 _ _ hf1c he0c]
    exact h4c
  rw [phase5_txCount _ hf1d he0d h50d h4d, hc4]

set_option maxHeartbeats 4000000 in
set_option maxRecDepth 8000 in
/-- The full bus trace of power_on when the very first bus transaction of
the bring-up (the SYSCTL software-reset write) faults: identical to the
fault-free trace. -/
theorem powerOn_ff_trace :
    (powerOn fortecSolved
      (sleepUsEv (initDev regs0 failFirst) 1000 2000)).trace =
      .sleepUs 1000 2000 :: powerOnEvents fortecSolved := by
  have hf1 : ∀ i, 1 ≤ i →
      (phase1 fortecSolved
        (sleepUsEv (initDev regs0 failFirst) 1000 2000)).fail i =
        false := by
    intro i hi
    rw [phase1_fail]
    show failFirst i = false
    simp [failFirst]
    omega
  have he0 : (phase1 fortecSolved
      (sleepUsEv (initDev regs0 failFirst) 1000 2000)).fail
      ((phase1 fortecSolved
        (sleepUsEv (initDev regs0 failFirst) 1000 2000)).txCount) =
      false := by
    rw [phase1_fail, phase1_ff_txCount]
    rfl
  rw [powerOn_phases,
    powerOn_tail_trace fortecSolved _ hf1 he0 phase1_ff_regs50
      phase1_ff_regs4,
    phase1_ff_trace]
  simp [powerOnEvents]

set_option maxHeartbeats 4000000 in
set_option maxRecDepth 8000 in
theorem powerOn_ff_txCount :
    (powerOn fortecSolved
      (sleepUsEv (initDev regs0 failFirst) 1000 2000)).txCount = 62 := by
  have hf1 : ∀ i, 1 ≤ i →
      (phase1 fortecSolved
        (sleepUsEv (initDev regs0 failFirst) 1000 2000)).fail i =
        false := by
    intro i hi
    rw [phase1_fail]
    show failFirst i = false
    simp [failFirst]
    omega
  have he0 : (phase1 fortecSolved
      (sleepUsEv (initDev regs0 failFirst) 1000 2000)).fail
      ((phase1 fortecSolved
        (sleepUsEv (initDev regs0 failFirst) 1000 2000)).txCount) =
      false := by
    rw [phase1_fail, phase1_ff_txCount]
    rfl
  rw [powerOn_phases,
    powerOn_tail_txCount fortecSolved _ hf1 he0 phase1_ff_regs50
      phase1_ff_regs4,
    phase1_ff_txCount]

theorem powerOn_ff_fail :
    (powerOn fortecSolved
      (sleepUsEv (initDev regs0 failFirst) 1000 2000)).fail =
      failFirst := by
  rw [powerOn_fail]
  rfl

set_option maxHeartbeats 2000000 in
theorem xfer1_ff_trace :
    (xferShort (powerOn fortecSolved
      (sleepUsEv (initDev regs0 failFirst) 1000 2000))
      MIPI_DSI_TURN_ON_PERIPHERAL 0 0).1.trace =
      .sleepUs 1000 2000 :: (powerOnEvents fortecSolved ++
        [.wr 1538 4146, .wr 1540 0, .wr 1552 0, .wr 1536 1]) := by
  have hf1P : ∀ i, 1 ≤ i →
      (powerOn fortecSolved
        (sleepUsEv (initDev regs0 failFirst) 1000 2000)).fail i =
        false := by
    intro i hi
    rw [powerOn_ff_fail]
    simp [failFirst]
    omega
  have he0P : (powerOn fortecSolved
      (sleepUsEv (initDev regs0 failFirst) 1000 2000)).fail
      ((powerOn fortecSolved
        (sleepUsEv (initDev regs0 failFirst) 1000 2000)).txCount) =
      false := by
    rw [powerOn_ff_fail, powerOn_ff_txCount]
    rfl
  rw [xfer_turnOn_trace _ hf1P he0P, powerOn_ff_trace]
  simp [List.append_assoc]

set_option maxHeartbeats 2000000 in
theorem xfer1_ff_txCount :
    (xferShort (powerOn fortecSolved
      (sleepUsEv (initDev regs0 failFirst) 1000 2000))
      MIPI_DSI_TURN_ON_PERIPHERAL 0 0).1.txCount = 66 := by
  have hf1P : ∀ i, 1 ≤ i →
      (powerOn fortecSolved
        (sleepUsEv (initDev regs0 failFirst) 1000 2000)).fail i =
        false := by
    intro i hi
    rw [powerOn_ff_fail]
    simp [failFirst]
    omega
  have he0P : (powerOn fortecSolved
      (sleepUsEv (initDev regs0 failFirst) 1000 2000)).fail
      ((powerOn fortecSolved
        (sleepUsEv (initDev regs0 failFirst) 1000 2000)).txCount) =
      false := by
    rw [powerOn_ff_fail, powerOn_ff_txCount]
    rfl
  rw [xfer_turnOn_txCount _ hf1P he0P, powerOn_ff_txCount]

theorem xfer1_ff_fail :
    (xferShort (powerOn fortecSolved
      (sleepUsEv (initDev regs0 failFirst) 1000 2000))
      MIPI_DSI_TURN_ON_PERIPHERAL 0 0).1.fail = failFirst := by
  rw [xferShort_fail, powerOn_ff_fail]

set_option maxHeartbeats 2000000 in
theorem xfer2_ff_trace :
    (xferShort (xferShort (powerOn fortecSolved
      (sleepUsEv (initDev regs0 failFirst) 1000 2000))
      MIPI_DSI_TURN_ON_PERIPHERAL 0 0).1
      MIPI_DSI_DCS_SHORT_WRITE_PARAM MIPI_DCS_SET_PIXEL_FORMAT
      MIPI_DCS_PIXEL_FMT_24BIT).1.trace =
      .sleepUs 1000 2000 :: (powerOnEvents fortecSolved ++
        [.wr 1538 4146, .wr 1540 0, .wr 1552 0, .wr 1536 1,
         .wr 1538 4117, .wr 1540 0, .wr 1552 30522, .wr 1536 1]) := by
  have hf1X : ∀ i, 1 ≤ i →
      (xferShort (powerOn fortecSolved
        (sleepUsEv (initDev regs0 failFirst) 1000 2000))
        MIPI_DSI_TURN_ON_PERIPHERAL 0 0).1.fail i = false := by
    intro i hi
    rw [xfer1_ff_fail]
    simp [failFirst]
    omega
  have he0X : (xferShort (powerOn fortecSolved
      (sleepUsEv (initDev regs0 failFirst) 1000 2000))
      MIPI_DSI_TURN_ON_PERIPHERAL 0 0).1.fail
      ((xferShort (powerOn fortecSolved
        (sleepUsEv (initDev regs0 failFirst) 1000 2000))
        MIPI_DSI_TURN_ON_PERIPHERAL 0 0).1.txCount) = false := by
    rw [xfer1_ff_fail, xfer1_ff_txCount]
    rfl
  rw [xfer_pixfmt_trace _ hf1X he0X, xfer1_ff_trace]
  simp [List.append_assoc]

set_option maxHeartbeats 2000000 in
/-- tc358768_enable with the first bus transaction faulted, for any input
configuration the solver maps to the FORTEC solution: the returned error
code is still 0 and the bus trace is the full 72-event success trace. -/
theorem enable_ff (d : Ddata) (h : calcPll d = (fortecSolved, 0)) :
    (enable d (initDev regs0 failFirst)).2.1.trace =
      enableEvents fortecSolved ∧
    (enable d (initDev regs0 failFirst)).2.2 = 0 := by
  simp only [enable, h]
  rw [if_neg (fun h2 => h2 rfl)]
  refine ⟨?_, rfl⟩
  rw [xfer2_ff_trace]
  simp [enableEvents, List.append_assoc]

/-- C2 (evaluation at the failing input): when the very first bus
transaction of the bring-up sequence (the SYSCTL software-reset write)
fails, tc358768_enable still returns 0 and the device performs exactly the
same 72-transaction sequence as a fault-free run: the error is discarded by
the void sequencer functions, no abort happens, and nothing surfaces to the
caller — contradicting the claimed abort-on-first-failure policy. -/
theorem C2_bus_error_ignored :
    failFirst 0 = true ∧
    (enable fortec (initDev regs0 failFirst)).2.2 = 0 ∧
    (enable fortec (initDev regs0 failFirst)).2.1.trace =
      (enable fortec (initDev regs0 noFail)).2.1.trace ∧
    (enable fortec (initDev regs0 failFirst)).2.1.trace.length = 72 := by
  refine ⟨rfl, (enable_ff fortec calcPll_fortec).2, ?_, ?_⟩
  · rw [(enable_ff fortec calcPll_fortec).1,
      (enable_trace fortec fortecSolved calcPll_fortec).1]
  · rw [(enable_ff fortec calcPll_fortec).1]
    rfl

/-- The masked set applied by update_bits to a 16-bit register value is a
plain bitwise or. -/
theorem rmw_set16 (x m : Nat) (hx : x < 65536) (hm : m < 65536) :
    ((x &&& (UINT_MAX ^^^ m % U32MOD)) ||| (m % U32MOD &&& m % U32MOD)) %
      U16MOD = x ||| m := by
  have hm32 : m % U32MOD = m := Nat.mod_eq_of_lt (by
    show m < 4294967296
    omega)
  rw [hm32, Nat.and_self]
  have hor : (x &&& (UINT_MAX ^^^ m)) ||| m = x ||| m := by
    apply Nat.eq_of_testBit_eq
    intro i
    rw [Nat.testBit_lor, Nat.testBit_lor, Nat.testBit_land, Nat.testBit_xor]
    rcases Nat.lt_or_ge i 32 with h32 | h32
    · have hU : Nat.testBit UINT_MAX i = true := by
        rw [show UINT_MAX = 2 ^ 32 - 1 from rfl, Nat.testBit_two_pow_sub_one]
        simpa using h32
      cases hmi : m.testBit i <;> simp [hU, hmi]
    · have h16i : (65536 : Nat) ≤ 2 ^ i := by
        rw [show (65536 : Nat) = 2 ^ 16 from rfl]
        exact Nat.pow_le_pow_right (by decide) (by omega)
      have hxi : x.testBit i = false :=
        Nat.testBit_eq_false_of_lt (Nat.lt_of_lt_of_le hx h16i)
      have hmi : m.testBit i = false :=
        Nat.testBit_eq_false_of_lt (Nat.lt_of_lt_of_le hm h16i)
      simp [hxi, hmi]
  rw [hor]
  refine Nat.mod_eq_of_lt ?_
  have := Nat.or_lt_two_pow (show x < 2 ^ 16 by simpa using hx)
    (show m < 2 ^ 16 by simpa using hm)
  simpa [U16MOD] using this

/-- The masked clear applied by update_bits to a 16-bit register value
keeps it a 16-bit value. -/
theorem rmw_clear16 (x m : Nat) (hx : x < 65536) :
    ((x &&& (UINT_MAX ^^^ m % U32MOD)) ||| (0 % U32MOD &&& m % U32MOD)) %
      U16MOD = x &&& (UINT_MAX ^^^ m % U32MOD) := by
  rw [show (0 : Nat) % U32MOD = 0 from rfl, Nat.zero_and, Nat.or_zero]
  exact Nat.mod_eq_of_lt (Nat.lt_of_le_of_lt Nat.and_le_left hx)

/-- update_bits on a 16-bit register, as a state transformer: the register
file always ends holding the masked result (reduced to 16 bits), the fault
model is unchanged, and the trace gains the read plus at most one write of
that result (none when it equals the original value). -/
theorem tcUpdateBits16_effect (dev : Dev) (reg mask val : Nat)
    (h16 : reg < 0x100 ∨ 0x600 ≤ reg) (hnf : ∀ i, dev.fail i = false)
    (hb : dev.regs reg < U16MOD) :
    ((tcUpdateBits dev reg mask val).1.regs = fun r =>
      if r = reg then ((dev.regs reg &&& (UINT_MAX ^^^ mask % U32MOD)) |||
        (val % U32MOD &&& mask % U32MOD)) % U16MOD else dev.regs r) ∧
    (tcUpdateBits dev reg mask val).1.fail = dev.fail ∧
    ∃ t, (tcUpdateBits dev reg mask val).1.trace =
        dev.trace ++ .rd reg :: t ∧
      List.Sublist t [.wr reg (((dev.regs reg &&& (UINT_MAX ^^^ mask % U32MOD)) |||
        (val % U32MOD &&& mask % U32MOD)) % U16MOD)] := by
  have hrd := tcRead16_ok dev reg h16 (hnf _)
  simp only [tcUpdateBits, hrd]
  rw [if_neg (by simp)]
  split
  · rw [tcWrite16_ok _ reg _ h16]
    on_goal 2 => exact hnf _
    have hmod : ((dev.regs reg &&& (UINT_MAX ^^^ mask % U32MOD)) |||
        (val % U32MOD &&& mask % U32MOD)) % U32MOD =
        (dev.regs reg &&& (UINT_MAX ^^^ mask % U32MOD)) |||
          (val % U32MOD &&& mask % U32MOD) :=
      Nat.mod_eq_of_lt (tmp_lt_u32 ..)
    refine ⟨?_, rfl, ?_⟩
    · funext r
      simp only [hmod]
    · refine ⟨[.wr reg (((dev.regs reg &&& (UINT_MAX ^^^ mask % U32MOD)) |||
        (val % U32MOD &&& mask % U32MOD)) % U16MOD)], ?_,
        List.Sublist.refl _⟩
      simp [hmod, List.append_assoc]
  · rename_i hne
    have heq : (dev.regs reg &&& (UINT_MAX ^^^ mask % U32MOD)) |||
        (val % U32MOD &&& mask % U32MOD) = dev.regs reg := by
      simpa using hne
    refine ⟨?_, rfl, [], by simp, List.nil_sublist _⟩
    funext r
    by_cases hr : r = reg
    · subst hr
      rw [if_pos rfl, heq, Nat.mod_eq_of_lt hb]
    · rw [if_neg hr]

/-- C10: tc358768_power_off performs, in order, a masked read-modify-write
setting FrmStop (bit 15 of PP_MISC, 0x0032), the one-frame wait, a masked
read-modify-write clearing PP_en (bit 6 of CONFCTL, 0x0004), and a masked
read-modify-write setting RstPtr (bit 14 of PP_MISC); afterwards PP_MISC
holds its old value with bits 15 and 14 set, CONFCTL holds its old value
with bit 6 cleared, every other register is untouched, and the trace shows
exactly the three reads in that order with at most one write after each. -/
theorem C10_teardown (dev : Dev) (hnf : ∀ i, dev.fail i = false)
    (hb : ∀ r, dev.regs r < U16MOD) :
    (∀ i, ((powerOff dev).regs 50).testBit i =
      ((dev.regs 50).testBit i || decide (i = 15) || decide (i = 14))) ∧
    (∀ i, ((powerOff dev).regs 4).testBit i =
      ((dev.regs 4).testBit i && ! decide (i = 6))) ∧
    (∀ r, r ≠ 50 → r ≠ 4 → (powerOff dev).regs r = dev.regs r) ∧
    (∃ t1 t2 t3, (powerOff dev).trace =
        dev.trace ++ .rd 50 :: t1 ++ .sleepMs 50 :: .rd 4 :: t2 ++
          .rd 50 :: t3 ∧
      (∃ v1, List.Sublist t1 [.wr 50 v1]) ∧
      (∃ v2, List.Sublist t2 [.wr 4 v2]) ∧
      (∃ v3, List.Sublist t3 [.wr 50 v3])) := by
  obtain ⟨r1, f1, t1, ht1, hs1⟩ := tcUpdateBits16_effect dev 50
    (1 <<< 15) (1 <<< 15) (by decide) hnf (hb 50)
  have hw1 : ((dev.regs 50 &&& (UINT_MAX ^^^ (1 <<< 15) % U32MOD)) |||
      ((1 <<< 15) % U32MOD &&& (1 <<< 15) % U32MOD)) % U16MOD =
      dev.regs 50 ||| 32768 :=
    rmw_set16 (dev.regs 50) 32768 (hb 50) (by decide)
  set s1 := (tcUpdateBits dev 50 (1 <<< 15) (1 <<< 15)).1 with hs1d
  set s1s := sleepMsEv s1 50 with hs1sd
  have f1s : s1s.fail = dev.fail := by
    rw [hs1sd, sleepMsEv_fail, f1]
  have hregs1 : s1s.regs = s1.regs := rfl
  have hnf1 : ∀ i, s1s.fail i = false := by
    intro i
    rw [f1s]
    exact hnf i
  have hor32768 : dev.regs 50 ||| 32768 < U16MOD := by
    have := Nat.or_lt_two_pow
      (show dev.regs 50 < 2 ^ 16 by simpa [U16MOD] using hb 50)
      (show (32768 : Nat) < 2 ^ 16 by decide)
    simpa [U16MOD] using this
  have hb1 : ∀ r, s1s.regs r < U16MOD := by
    intro r
    rw [hregs1]
    simp only [r1]
    by_cases hr : r = 50
    · subst hr
      rw [if_pos rfl, hw1]
      exact hor32768
    · rw [if_neg hr]
      exact hb r
  obtain ⟨r2, f2, t2, ht2, hs2⟩ := tcUpdateBits16_effect s1s 4
    (1 <<< 6) 0 (by decide) hnf1 (hb1 4)
  have hregs1at4 : s1s.regs 4 = dev.regs 4 := by
    rw [hregs1]
    simp only [r1]
    rw [if_neg (by decide)]
  set s2 := (tcUpdateBits s1s 4 (1 <<< 6) 0).1 with hs2d
  have hnf2 : ∀ i, s2.fail i = false := by
    intro i
    rw [f2]
    exact hnf1 i
  have hb2 : ∀ r, s2.regs r < U16MOD := by
    intro r
    simp only [r2]
    by_cases hr : r = 4
    · subst hr
      rw [if_pos rfl, rmw_clear16 _ _ (hb1 4)]
      exact Nat.lt_of_le_of_lt Nat.and_le_left (hb1 4)
    · rw [if_neg hr]
      exact hb1 r
  obtain ⟨r3, f3, t3, ht3, hs3⟩ := tcUpdateBits16_effect s2 50
    (1 <<< 14) (1 <<< 14) (by decide) hnf2 (hb2 50)
  have hregs2at50 : s2.regs 50 = dev.regs 50 ||| 32768 := by
    simp only [r2]
    rw [if_neg (by decide), hregs1]
    simp only [r1]
    rw [if_true, hw1]
  have hw3 : ((s2.regs 50 &&& (UINT_MAX ^^^ (1 <<< 14) % U32MOD)) |||
      ((1 <<< 14) % U32MOD &&& (1 <<< 14) % U32MOD)) % U16MOD =
      (dev.regs 50 ||| 32768) ||| 16384 := by
    rw [hregs2at50]
    exact rmw_set16 _ 16384 hor32768 (by decide)
  have hPO : powerOff dev = (tcUpdateBits s2 50 (1 <<< 14)
      (1 <<< 14)).1 := rfl
  refine ⟨?_, ?_, ?_, ?_⟩
  · intro i
    rw [hPO]
    simp only [r3]
    rw [if_true, hw3, Nat.testBit_lor, Nat.testBit_lor,
      show (32768 : Nat) = 2 ^ 15 from rfl,
      show (16384 : Nat) = 2 ^ 14 from rfl,
      Nat.testBit_two_pow, Nat.testBit_two_pow]
    by_cases h15 : i = 15
    · subst h15
      simp
    · by_cases h14 : i = 14
      · subst h14
        simp
      · simp [h15, h14, Ne.symm h15, Ne.symm h14]
  · intro i
    rw [hPO]
    simp only [r3]
    rw [if_neg (by decide)]
    simp only [r2]
    rw [if_true, rmw_clear16 _ _ (hb1 4), hregs1at4,
      Nat.testBit_land, Nat.testBit_xor,
      show UINT_MAX = 2 ^ 32 - 1 from rfl, Nat.testBit_two_pow_sub_one,
      show ((1 <<< 6) : Nat) % U32MOD = 2 ^ 6 from rfl,
      Nat.testBit_two_pow]
    rcases Nat.lt_or_ge i 32 with h32 | h32
    · by_cases h6 : i = 6
      · subst h6
        simp
      · simp [h32, h6, Ne.symm h6]
    · have h16i : (65536 : Nat) ≤ 2 ^ i := by
        rw [show (65536 : Nat) = 2 ^ 16 from rfl]
        exact Nat.pow_le_pow_right (by decide) (by omega)
      have hxi : (dev.regs 4).testBit i = false :=
        Nat.testBit_eq_false_of_lt
          (Nat.lt_of_lt_of_le (by simpa [U16MOD] using hb 4) h16i)
      simp [hxi]
  · intro r hr50 hr4
    rw [hPO]
    simp only [r3]
    rw [if_neg hr50]
    simp only [r2]
    rw [if_neg hr4, hregs1]
    simp only [r1]
    rw [if_neg hr50]
  · refine ⟨t1, t2, t3, ?_, ⟨_, hs1⟩, ⟨_, hs2⟩, ⟨_, hs3⟩⟩
    rw [hPO, ht3, ht2]
    have hst : s1s.trace = s1.trace ++ [.sleepMs 50] := rfl
    rw [hst, ht1]
    simp [List.append_assoc]

/-- A bounded register file with PP_MISC = 5 and CONFCTL = 65. -/
def regsX : Nat → Nat := fun r => if r = 50 then 5 else if r = 4 then 65
  else 7

/-- C10 witness: the teardown effect on a concrete bounded register file. -/
theorem C10_teardown_witness :
    (∀ i, ((powerOff (initDev regsX noFail)).regs 50).testBit i =
      (((initDev regsX noFail).regs 50).testBit i || decide (i = 15) ||
        decide (i = 14))) ∧
    (∀ i, ((powerOff (initDev regsX noFail)).regs 4).testBit i =
      (((initDev regsX noFail).regs 4).testBit i && ! decide (i = 6))) ∧
    (∀ r, r ≠ 50 → r ≠ 4 →
      (powerOff (initDev regsX noFail)).regs r =
        (initDev regsX noFail).regs r) ∧
    (∃ t1 t2 t3, (powerOff (initDev regsX noFail)).trace =
        (initDev regsX noFail).trace ++ .rd 50 :: t1 ++ .sleepMs 50 ::
          .rd 4 :: t2 ++ .rd 50 :: t3 ∧
      (∃ v1, List.Sublist t1 [.wr 50 v1]) ∧
      (∃ v2, List.Sublist t2 [.wr 4 v2]) ∧
      (∃ v3, List.Sublist t3 [.wr 50 v3])) :=
  C10_teardown (initDev regsX noFail) (fun i => rfl) (by
    intro r
    simp only [initDev, regsX]
    split_ifs <;> decide)

end TC358768
